import Mathlib

/-!
# Verification of the hipstershop checkout service

A shallow embedding of `src/checkoutservice/main.go` (the `PlaceOrder`
orchestrator, order preparation and the downstream client adapters), together
with a model of the `money` package's arithmetic following the specification's
description of `Sum` and `Must`.

Downstream collaborators (cart, product catalog, currency, shipping, payment,
email) are modelled by an environment `Env` of deterministic response
functions, one per RPC, plus a per-address dial outcome.  Every embedded
function returns, besides its result, the list of connection/RPC events it
performs, so that claims about which calls happen (and in which order) can be
stated and proved.
-/

/-- ISO-4217-style money value: currency code, whole units, fractional
"nanos".  Mirrors `pb.Money` (fields `CurrencyCode`, `Units`, `Nanos`). -/
structure Money where
  currencyCode : String
  units : Int
  nanos : Int
deriving Repr, DecidableEq

/-- The data-model invariant on `Money` from the spec (§3): nanos is an
integer in [-999,999,999 .. 999,999,999] with the same sign as units, or
zero. -/
def IsValid (m : Money) : Prop :=
  -999999999 ≤ m.nanos ∧ m.nanos ≤ 999999999 ∧
    (0 < m.units → 0 ≤ m.nanos) ∧ (m.units < 0 → m.nanos ≤ 0)

instance (m : Money) : Decidable (IsValid m) := by
  unfold IsValid; exact inferInstance

/-- The exact value of a `Money` in nanos (units·10⁹ + nanos); two valid
moneys of the same currency are equal iff their `totalNanos` agree. -/
def totalNanos (m : Money) : Int :=
  m.units * 1000000000 + m.nanos

/-- The only failure mode of money arithmetic the spec describes (§4.1):
mismatching currency codes. -/
inductive MoneyError
  | currencyMismatch
deriving Repr, DecidableEq

/-- Carry step of normalization: if the combined nanos magnitude exceeds
999,999,999, carry 1,000,000,000 nanos into a unit. -/
def carryNanos (units nanos : Int) : Int × Int :=
  if nanos > 999999999 then (units + 1, nanos - 1000000000)
  else if nanos < -999999999 then (units - 1, nanos + 1000000000)
  else (units, nanos)

/-- Borrow step of normalization: if units and nanos have opposite signs,
borrow one unit into ±1,000,000,000 nanos so the two fields share a sign
(or nanos is zero). -/
def borrowUnit (p : Int × Int) : Int × Int :=
  if 0 < p.1 ∧ p.2 < 0 then (p.1 - 1, p.2 + 1000000000)
  else if p.1 < 0 ∧ 0 < p.2 then (p.1 + 1, p.2 - 1000000000)
  else p

namespace money

/-- Modelled from the spec: `money.Sum` of the checkout service's `money`
package, whose source is not under `src/`.  Per §4.1: fails with
`CurrencyMismatch` when the currency codes differ; otherwise adds units and
nanos independently, then normalizes by the carry and borrow steps. -/
def Sum (l r : Money) : Except MoneyError Money :=
  if l.currencyCode ≠ r.currencyCode then .error .currencyMismatch
  else
    let q := borrowUnit (carryNanos (l.units + r.units) (l.nanos + r.nanos))
    .ok ⟨l.currencyCode, q.1, q.2⟩

/-- Modelled from the spec: `money.Must` of the `money` package (not under
`src/`): turns a fallible construction into a value, fatal (modelled as
`none`) on a money-arithmetic error. -/
def Must (x : Except MoneyError Money) : Option Money :=
  match x with
  | .ok v => some v
  | .error _ => none

end money

theorem carry_borrow_value (u n : Int) :
    (borrowUnit (carryNanos u n)).1 * 1000000000 + (borrowUnit (carryNanos u n)).2
      = u * 1000000000 + n := by
  unfold carryNanos borrowUnit
  split_ifs <;> simp_all <;> omega

theorem carry_borrow_valid (u n : Int)
    (h : -1999999998 ≤ n) (h2 : n ≤ 1999999998) :
    -999999999 ≤ (borrowUnit (carryNanos u n)).2 ∧
      (borrowUnit (carryNanos u n)).2 ≤ 999999999 ∧
      (0 < (borrowUnit (carryNanos u n)).1 → 0 ≤ (borrowUnit (carryNanos u n)).2) ∧
      ((borrowUnit (carryNanos u n)).1 < 0 → (borrowUnit (carryNanos u n)).2 ≤ 0) := by
  unfold carryNanos borrowUnit
  split_ifs <;> simp_all <;> omega

/-- Two valid moneys with the same currency and the same exact value are
equal: the normalized representation is canonical. -/
theorem valid_total_inj {a b : Money} (ha : IsValid a) (hb : IsValid b)
    (hc : a.currencyCode = b.currencyCode) (ht : totalNanos a = totalNanos b) :
    a = b := by
  obtain ⟨ca, ua, na⟩ := a
  obtain ⟨cb, ub, nb⟩ := b
  unfold IsValid at ha hb
  unfold totalNanos at ht
  simp only at ha hb hc ht
  rw [Money.mk.injEq]
  refine ⟨hc, ?_, ?_⟩ <;> omega

/-- `Sum` on valid, same-currency operands: succeeds, preserves the exact
value, produces a valid (normalized) result in the left operand's currency. -/
theorem Sum_ok {a b : Money} (ha : IsValid a) (hb : IsValid b)
    (hc : a.currencyCode = b.currencyCode) :
    ∃ c, money.Sum a b = .ok c ∧ IsValid c ∧
      totalNanos c = totalNanos a + totalNanos b ∧ c.currencyCode = a.currencyCode := by
  refine ⟨⟨a.currencyCode, (borrowUnit (carryNanos (a.units + b.units) (a.nanos + b.nanos))).1,
      (borrowUnit (carryNanos (a.units + b.units) (a.nanos + b.nanos))).2⟩, ?_, ?_, ?_, rfl⟩
  · unfold money.Sum
    rw [if_neg (by simp [hc])]
  · have hv := carry_borrow_valid (a.units + b.units) (a.nanos + b.nanos)
      (by unfold IsValid at ha hb; omega) (by unfold IsValid at ha hb; omega)
    unfold IsValid
    exact hv
  · have hval := carry_borrow_value (a.units + b.units) (a.nanos + b.nanos)
    unfold totalNanos
    simp only
    omega

/-- `Sum` needs only equal currency codes to succeed, and the result carries
the left operand's currency code. -/
theorem Sum_currency_ok {a b : Money} (hc : a.currencyCode = b.currencyCode) :
    ∃ c, money.Sum a b = .ok c ∧ c.currencyCode = a.currencyCode := by
  unfold money.Sum
  rw [if_neg (by simp [hc])]
  exact ⟨_, rfl, rfl⟩

/-- `Sum` fails with `CurrencyMismatch` exactly when the currency codes
differ. -/
theorem Sum_mismatch {a b : Money} (hc : a.currencyCode ≠ b.currencyCode) :
    money.Sum a b = .error .currencyMismatch := by
  unfold money.Sum
  rw [if_pos hc]

/-- `Sum` is commutative on same-currency operands. -/
theorem Sum_comm {a b : Money} (hc : a.currencyCode = b.currencyCode) :
    money.Sum a b = money.Sum b a := by
  unfold money.Sum
  rw [Int.add_comm a.units, Int.add_comm a.nanos, hc]

/-- Adding the zero money of a valid money's own currency returns it
unchanged. -/
theorem Sum_zero {s : Money} {cur : String} (hv : IsValid s)
    (hc : s.currencyCode = cur) :
    money.Sum ⟨cur, 0, 0⟩ s = .ok s := by
  obtain ⟨cs, us, ns⟩ := s
  unfold IsValid at hv
  simp only at hv hc
  unfold money.Sum carryNanos borrowUnit
  rw [if_neg (by simp [hc])]
  simp only [Int.zero_add]
  split_ifs <;> simp_all <;> omega

/-! ## Data model of the checkout service (from `pb` messages used in
`src/checkoutservice/main.go`) -/

/-- A cart line item (`pb.CartItem`): product identifier and quantity. -/
structure CartItem where
  productId : String
  quantity : Int
deriving Repr, DecidableEq

/-- An order line item (`pb.OrderItem`): the cart item paired with its
localized cost. -/
structure OrderItem where
  item : CartItem
  cost : Money
deriving Repr, DecidableEq

/-- Shipping destination (`pb.Address`); opaque to the core. -/
structure Address where
  streetAddress : String
  city : String
  state : String
  country : String
  zipCode : Int
deriving Repr, DecidableEq

/-- Opaque payment credential (`pb.CreditCardInfo`). -/
structure CreditCardInfo where
  creditCardNumber : String
  creditCardCvv : Int
  creditCardExpirationYear : Int
  creditCardExpirationMonth : Int
deriving Repr, DecidableEq

/-- Catalog product (`pb.Product`); the checkout core only reads its USD
price. -/
structure Product where
  id : String
  priceUsd : Money
deriving Repr, DecidableEq

/-- The order result (`pb.OrderResult`) assembled by `PlaceOrder`. -/
structure OrderResult where
  orderId : String
  shippingTrackingId : String
  shippingCost : Money
  shippingAddress : Address
  items : List OrderItem
deriving Repr, DecidableEq

/-- `pb.PlaceOrderRequest`. -/
structure PlaceOrderRequest where
  userId : String
  userCurrency : String
  address : Address
  email : String
  creditCard : CreditCardInfo
deriving Repr, DecidableEq

/-- `pb.PlaceOrderResponse`: wraps the order result. -/
structure PlaceOrderResponse where
  order : OrderResult
deriving Repr, DecidableEq

/-- The `checkoutService` struct: one network address per collaborator
(the tracing interceptors are instrumentation and are out of scope). -/
structure checkoutService where
  productCatalogSvcAddr : String
  cartSvcAddr : String
  currencySvcAddr : String
  shippingSvcAddr : String
  emailSvcAddr : String
  paymentSvcAddr : String
deriving Repr, DecidableEq

/-- One outbound RPC the checkout core can issue, with its request payload.
This enumerates every RPC issued anywhere in `main.go`; in particular there
is no refund/reversal RPC. -/
inductive RPC
  | getCart (userId : String)
  | emptyCart (userId : String)
  | getProduct (id : String)
  | convert (fromM : Money) (toCode : String)
  | getQuote (address : Address) (items : List CartItem)
  | shipOrder (address : Address) (items : List CartItem)
  | charge (amount : Money) (creditCard : CreditCardInfo)
  | sendOrderConfirmation (email : String) (order : OrderResult)
deriving Repr, DecidableEq

/-- An observable connection-level event: dialing an address, issuing an RPC
over the connection to an address, or closing the connection to an address. -/
inductive Event
  | dial (addr : String)
  | rpc (addr : String) (call : RPC)
  | close (addr : String)
deriving Repr, DecidableEq

/-- The behavior of the outside world for one `PlaceOrder` run: the outcome
of dialing each address, and every collaborator's (deterministic) response
to each request.  Errors are the collaborator/transport error strings. -/
structure Env where
  newUUID : Except String String
  dial : String → Except String Unit
  getCartResp : String → Except String (List CartItem)
  emptyCartResp : String → Except String Unit
  getProductResp : String → Except String Product
  convertResp : Money → String → Except String Money
  getQuoteResp : Address → List CartItem → Except String Money
  shipOrderResp : Address → List CartItem → Except String String
  chargeResp : Money → CreditCardInfo → Except String String
  sendConfirmResp : String → OrderResult → Except String Unit

/-- Go's `%q` formatting of a string (quotation as used in the item error
messages). -/
def quoteStr (s : String) : String := "\"" ++ s ++ "\""

/-! ## Downstream client adapters (from `main.go`).

Each returns its Go result (`Except` models Go's `(value, error)` return
checked by the caller) together with the list of events it performed.  The
deferred `conn.Close()` runs on both the RPC-success and RPC-failure paths,
but not when the dial itself failed. -/

/-- `(cs *checkoutService) getUserCart` (main.go:210-222). -/
def getUserCart (cs : checkoutService) (env : Env) (userID : String) :
    Except String (List CartItem) × List Event :=
  match env.dial cs.cartSvcAddr with
  | .error e => (.error ("could not connect cart service: " ++ e), [.dial cs.cartSvcAddr])
  | .ok _ =>
    match env.getCartResp userID with
    | .error e => (.error ("failed to get user cart during checkout: " ++ e),
        [.dial cs.cartSvcAddr, .rpc cs.cartSvcAddr (.getCart userID), .close cs.cartSvcAddr])
    | .ok items => (.ok items,
        [.dial cs.cartSvcAddr, .rpc cs.cartSvcAddr (.getCart userID), .close cs.cartSvcAddr])

/-- `(cs *checkoutService) emptyUserCart` (main.go:224-235). -/
def emptyUserCart (cs : checkoutService) (env : Env) (userID : String) :
    Except String Unit × List Event :=
  match env.dial cs.cartSvcAddr with
  | .error e => (.error ("could not connect cart service: " ++ e), [.dial cs.cartSvcAddr])
  | .ok _ =>
    match env.emptyCartResp userID with
    | .error e => (.error ("failed to empty user cart during checkout: " ++ e),
        [.dial cs.cartSvcAddr, .rpc cs.cartSvcAddr (.emptyCart userID), .close cs.cartSvcAddr])
    | .ok _ => (.ok (),
        [.dial cs.cartSvcAddr, .rpc cs.cartSvcAddr (.emptyCart userID), .close cs.cartSvcAddr])

/-- `(cs *checkoutService) convertCurrency` (main.go:263-276). -/
def convertCurrency (cs : checkoutService) (env : Env) (fromM : Money) (toCurrency : String) :
    Except String Money × List Event :=
  match env.dial cs.currencySvcAddr with
  | .error e => (.error ("could not connect currency service: " ++ e), [.dial cs.currencySvcAddr])
  | .ok _ =>
    match env.convertResp fromM toCurrency with
    | .error e => (.error ("failed to convert currency: " ++ e),
        [.dial cs.currencySvcAddr, .rpc cs.currencySvcAddr (.convert fromM toCurrency),
          .close cs.currencySvcAddr])
    | .ok result => (.ok result,
        [.dial cs.currencySvcAddr, .rpc cs.currencySvcAddr (.convert fromM toCurrency),
          .close cs.currencySvcAddr])

/-- `(cs *checkoutService) quoteShipping` (main.go:193-208). -/
def quoteShipping (cs : checkoutService) (env : Env) (address : Address)
    (items : List CartItem) : Except String Money × List Event :=
  match env.dial cs.shippingSvcAddr with
  | .error e => (.error ("could not connect shipping service: " ++ e), [.dial cs.shippingSvcAddr])
  | .ok _ =>
    match env.getQuoteResp address items with
    | .error e => (.error ("failed to get shipping quote: " ++ e),
        [.dial cs.shippingSvcAddr, .rpc cs.shippingSvcAddr (.getQuote address items),
          .close cs.shippingSvcAddr])
    | .ok quote => (.ok quote,
        [.dial cs.shippingSvcAddr, .rpc cs.shippingSvcAddr (.getQuote address items),
          .close cs.shippingSvcAddr])

/-- `(cs *checkoutService) shipOrder` (main.go:306-319).  NOTE: the
dial-failure message in the source really says "email service" — a
copy-paste slip kept faithfully here. -/
def shipOrder (cs : checkoutService) (env : Env) (address : Address)
    (items : List CartItem) : Except String String × List Event :=
  match env.dial cs.shippingSvcAddr with
  | .error e => (.error ("failed to connect email service: " ++ e), [.dial cs.shippingSvcAddr])
  | .ok _ =>
    match env.shipOrderResp address items with
    | .error e => (.error ("shipment failed: " ++ e),
        [.dial cs.shippingSvcAddr, .rpc cs.shippingSvcAddr (.shipOrder address items),
          .close cs.shippingSvcAddr])
    | .ok trackingId => (.ok trackingId,
        [.dial cs.shippingSvcAddr, .rpc cs.shippingSvcAddr (.shipOrder address items),
          .close cs.shippingSvcAddr])

/-- `(cs *checkoutService) chargeCard` (main.go:278-292). -/
def chargeCard (cs : checkoutService) (env : Env) (amount : Money)
    (paymentInfo : CreditCardInfo) : Except String String × List Event :=
  match env.dial cs.paymentSvcAddr with
  | .error e => (.error ("failed to connect payment service: " ++ e), [.dial cs.paymentSvcAddr])
  | .ok _ =>
    match env.chargeResp amount paymentInfo with
    | .error e => (.error ("could not charge the card: " ++ e),
        [.dial cs.paymentSvcAddr, .rpc cs.paymentSvcAddr (.charge amount paymentInfo),
          .close cs.paymentSvcAddr])
    | .ok txid => (.ok txid,
        [.dial cs.paymentSvcAddr, .rpc cs.paymentSvcAddr (.charge amount paymentInfo),
          .close cs.paymentSvcAddr])

/-- `(cs *checkoutService) sendOrderConfirmation` (main.go:294-304).  NOTE:
the RPC's own error is returned unwrapped (`return err` in the source). -/
def sendOrderConfirmation (cs : checkoutService) (env : Env) (email : String)
    (order : OrderResult) : Except String Unit × List Event :=
  match env.dial cs.emailSvcAddr with
  | .error e => (.error ("failed to connect email service: " ++ e), [.dial cs.emailSvcAddr])
  | .ok _ =>
    match env.sendConfirmResp email order with
    | .error e => (.error e,
        [.dial cs.emailSvcAddr, .rpc cs.emailSvcAddr (.sendOrderConfirmation email order),
          .close cs.emailSvcAddr])
    | .ok _ => (.ok (),
        [.dial cs.emailSvcAddr, .rpc cs.emailSvcAddr (.sendOrderConfirmation email order),
          .close cs.emailSvcAddr])

/-- The per-item loop body of `prepOrderItems` (main.go:247-259): for each
cart item, a `GetProduct` RPC over the already-open catalog connection, then
a `convertCurrency` adapter call (which dials the currency service itself).
Aborts on the first failure. -/
def prepOrderItemsLoop (cs : checkoutService) (env : Env) (userCurrency : String) :
    List CartItem → Except String (List OrderItem) × List Event
  | [] => (.ok [], [])
  | item :: rest =>
    let ev := Event.rpc cs.productCatalogSvcAddr (.getProduct item.productId)
    match env.getProductResp item.productId with
    | .error _ => (.error ("failed to get product #" ++ quoteStr item.productId), [ev])
    | .ok product =>
      match convertCurrency cs env product.priceUsd userCurrency with
      | (.error _, t2) =>
          (.error ("failed to convert price of " ++ quoteStr item.productId
            ++ " to " ++ userCurrency), ev :: t2)
      | (.ok price, t2) =>
        match prepOrderItemsLoop cs env userCurrency rest with
        | (.error e, t3) => (.error e, ev :: (t2 ++ t3))
        | (.ok out, t3) => (.ok (⟨item, price⟩ :: out), ev :: (t2 ++ t3))

/-- `(cs *checkoutService) prepOrderItems` (main.go:237-261): dials the
product catalog once, then runs the per-item loop over that connection;
the deferred close runs on every path after a successful dial. -/
def prepOrderItems (cs : checkoutService) (env : Env) (items : List CartItem)
    (userCurrency : String) : Except String (List OrderItem) × List Event :=
  match env.dial cs.productCatalogSvcAddr with
  | .error e => (.error ("could not connect product catalog service: " ++ e),
      [.dial cs.productCatalogSvcAddr])
  | .ok _ =>
    match prepOrderItemsLoop cs env userCurrency items with
    | (r, t) => (r, .dial cs.productCatalogSvcAddr :: (t ++ [.close cs.productCatalogSvcAddr]))

/-- The transient `orderPrep` struct (main.go:162-166). -/
structure orderPrep where
  orderItems : List OrderItem
  cartItems : List CartItem
  shippingCostLocalized : Money
deriving Repr, DecidableEq

/-- `(cs *checkoutService) prepareOrderItemsAndShippingQuoteFromCart`
(main.go:168-191): cart fetch, per-item pricing, USD shipping quote, quote
localization — each failure wrapped and aborting the preparation. -/
def prepareOrderItemsAndShippingQuoteFromCart (cs : checkoutService) (env : Env)
    (userID userCurrency : String) (address : Address) :
    Except String orderPrep × List Event :=
  match getUserCart cs env userID with
  | (.error e, t1) => (.error ("cart failure: " ++ e), t1)
  | (.ok cartItems, t1) =>
    match prepOrderItems cs env cartItems userCurrency with
    | (.error e, t2) => (.error ("failed to prepare order: " ++ e), t1 ++ t2)
    | (.ok orderItems, t2) =>
      match quoteShipping cs env address cartItems with
      | (.error e, t3) => (.error ("shipping quote failure: " ++ e), t1 ++ t2 ++ t3)
      | (.ok shippingUSD, t3) =>
        match convertCurrency cs env shippingUSD userCurrency with
        | (.error e, t4) =>
            (.error ("failed to convert shipping cost to currency: " ++ e), t1 ++ t2 ++ t3 ++ t4)
        | (.ok shippingPrice, t4) =>
            (.ok ⟨orderItems, cartItems, shippingPrice⟩, t1 ++ t2 ++ t3 ++ t4)

/-- The item-cost summation loop of `PlaceOrder` (main.go:128-130):
`total = money.Must(money.Sum(total, it.Cost))` for each order item, where
an arithmetic error is fatal (propagated here, turned fatal by `Must`). -/
def sumCosts (acc : Money) : List OrderItem → Except MoneyError Money
  | [] => .ok acc
  | it :: rest =>
    match money.Sum acc it.cost with
    | .error e => .error e
    | .ok acc2 => sumCosts acc2 rest

/-- The ComputeTotal step of `PlaceOrder` (main.go:124-130): zero money in
the user currency, plus the localized shipping cost, plus every order item's
cost in cart order. -/
def computeTotal (userCurrency : String) (shippingCostLocalized : Money)
    (orderItems : List OrderItem) : Except MoneyError Money :=
  match money.Sum ⟨userCurrency, 0, 0⟩ shippingCostLocalized with
  | .error e => .error e
  | .ok t => sumCosts t orderItems

/-- gRPC status classes `PlaceOrder` uses (`codes.Internal`,
`codes.Unavailable`). -/
inductive Code
  | internal
  | unavailable
deriving Repr, DecidableEq

/-- The observable outcome of one `PlaceOrder` call: a response, a gRPC
error status, or a crash of the request (a `money.Must` panic). -/
inductive Outcome
  | panic
  | fail (code : Code) (msg : String)
  | ok (resp : PlaceOrderResponse)
deriving Repr, DecidableEq

/-- `(cs *checkoutService) PlaceOrder` (main.go:110-160): order-id
generation, preparation, total computation (`money.Must` fatal on error),
charge, shipment, best-effort cart emptying, result assembly, best-effort
confirmation email. -/
def PlaceOrder (cs : checkoutService) (env : Env) (req : PlaceOrderRequest) :
    Outcome × List Event :=
  match env.newUUID with
  | .error _ => (.fail .internal "failed to generate order uuid", [])
  | .ok orderID =>
    match prepareOrderItemsAndShippingQuoteFromCart cs env req.userId req.userCurrency
        req.address with
    | (.error e, t1) => (.fail .internal e, t1)
    | (.ok prep, t1) =>
      match money.Must (computeTotal req.userCurrency prep.shippingCostLocalized
          prep.orderItems) with
      | none => (.panic, t1)
      | some total =>
        match chargeCard cs env total req.creditCard with
        | (.error e, t2) => (.fail .internal ("failed to charge card: " ++ e), t1 ++ t2)
        | (.ok _txID, t2) =>
          match shipOrder cs env req.address prep.cartItems with
          | (.error e, t3) => (.fail .unavailable ("shipping error: " ++ e), t1 ++ t2 ++ t3)
          | (.ok shippingTrackingID, t3) =>
            let t4 := (emptyUserCart cs env req.userId).2
            let orderResult : OrderResult :=
              ⟨orderID, shippingTrackingID, prep.shippingCostLocalized, req.address,
                prep.orderItems⟩
            let t5 := (sendOrderConfirmation cs env req.email orderResult).2
            (.ok ⟨orderResult⟩, t1 ++ t2 ++ t3 ++ t4 ++ t5)

/-! ## Trace observations -/

/-- The payment amount carried by an event, when the event is a
`Payment.Charge` RPC. -/
def chargeOf : Event → Option Money
  | .rpc _ (.charge m _) => some m
  | _ => none

/-- All amounts passed to `Payment.Charge` in a trace, in order.  Since
`RPC` enumerates every call the code issues, this lists every
payment-service RPC: there is no refund or reversal constructor. -/
def chargeAmounts (t : List Event) : List Money :=
  t.filterMap chargeOf

/-- Whether an event is a `GetProduct` RPC (the RPCs issued over the
product-catalog connection). -/
def isGetProductEvent : Event → Bool
  | .rpc _ (.getProduct _) => true
  | _ => false

/-- The RPC events of a trace (dials and closes dropped). -/
def rpcEvents (t : List Event) : List Event :=
  t.filter fun e => match e with
    | .rpc _ _ => true
    | _ => false

/-- How many times a trace closes the connection to `addr`. -/
def closeCountAt (addr : String) (t : List Event) : Nat :=
  (t.filter fun e => match e with
    | .close a => a == addr
    | _ => false).length

/-- The trace begins by dialing `addr`. -/
def startsWithDial (addr : String) (t : List Event) : Prop :=
  t.head? = some (.dial addr)

/-- The trace ends by closing `addr` (release before returning, success
path included). -/
def endsWithClose (addr : String) (t : List Event) : Prop :=
  t.getLast? = some (.close addr)

/-- Connection discipline of one adapter call: if the dial failed, the trace
is just that dial (nothing to release); otherwise the call opened `addr`
first, released it last and exactly once, and issued `n` RPCs selected by
`p` over it. -/
def adapterCallShape (addr : String) (dialRes : Except String Unit) (p : Event → Bool)
    (n : Nat) (t : List Event) : Prop :=
  match dialRes with
  | .error _ => t = [.dial addr]
  | .ok _ => startsWithDial addr t ∧ endsWithClose addr t ∧ closeCountAt addr t = 1 ∧
      (t.filter p).length = n

/-! ## Independent reconstruction of the total (from the spec's words) -/

/-- Modelled from the spec: fold of `Sum` over a list of costs (§4.4 step 3
/ §8: "sum in every order item's cost", in cart order). -/
def specSumCosts (acc : Money) : List Money → Except MoneyError Money
  | [] => .ok acc
  | c :: rest =>
    match money.Sum acc c with
    | .error e => .error e
    | .ok acc2 => specSumCosts acc2 rest

/-- Modelled from the spec: the independent reconstruction of PlaceOrder's
total (§8): start from zero Money in the user currency, Sum in the localized
shipping cost, then Sum in every order item's localized cost, in cart
order. -/
def specTotal (userCurrency : String) (shippingCostLocalized : Money)
    (costs : List Money) : Except MoneyError Money :=
  match money.Sum ⟨userCurrency, 0, 0⟩ shippingCostLocalized with
  | .error e => .error e
  | .ok t => specSumCosts t costs

/-! ## Concrete fixtures for witnesses and counterexamples -/

/-- A concrete service configuration with pairwise distinct collaborator
addresses. -/
def csW : checkoutService :=
  ⟨"catalog:3550", "cart:7070", "currency:7000", "shipping:50051", "email:8080", "payment:50052"⟩

def addrW : Address := ⟨"1600 Amphitheatre Pkwy", "Mountain View", "CA", "US", 94043⟩

def cardW : CreditCardInfo := ⟨"4432-8015-6152-0454", 672, 2030, 1⟩

def itemW1 : CartItem := ⟨"P1", 2⟩

def itemW2 : CartItem := ⟨"P2", 1⟩

/-- An environment in which every collaborator succeeds: the cart holds one
item, the catalog prices everything at 10.00 USD, conversion keeps the
numeric value and retargets the currency code, shipping quotes 5.00 USD. -/
def envOK : Env :=
  ⟨.ok "order-1",
    fun _ => .ok (),
    fun _ => .ok [itemW1],
    fun _ => .ok (),
    fun pid => .ok ⟨pid, ⟨"USD", 10, 0⟩⟩,
    fun m c => .ok ⟨c, m.units, m.nanos⟩,
    fun _ _ => .ok ⟨"USD", 5, 0⟩,
    fun _ _ => .ok "TRACK-1",
    fun _ _ => .ok "TX-1",
    fun _ _ => .ok ()⟩

def reqW : PlaceOrderRequest := ⟨"u1", "EUR", addrW, "someone@example.com", cardW⟩

/-- The preparation result for `envOK` / `reqW`. -/
def prepW : orderPrep :=
  ⟨[⟨itemW1, ⟨"EUR", 10, 0⟩⟩], [itemW1], ⟨"EUR", 5, 0⟩⟩

/-- Like `envOK` but shipping's `ShipOrder` RPC fails. -/
def envShipFail : Env := { envOK with shipOrderResp := fun _ _ => .error "carrier unreachable" }

/-- Like `envOK` but the cart fetch fails. -/
def envCartFail : Env := { envOK with getCartResp := fun _ => .error "redis timeout" }

/-- Like `envOK` but `Payment.Charge` fails. -/
def envChargeFail : Env := { envOK with chargeResp := fun _ _ => .error "card declined" }

/-- Like `envOK` but the user's cart is empty. -/
def envEmptyCart : Env := { envOK with getCartResp := fun _ => .ok [] }

/-- Like `envOK` but both best-effort steps (cart emptying, confirmation
email) fail. -/
def envBestEffortFail : Env :=
  { envOK with
    emptyCartResp := fun _ => .error "cart unavailable"
    sendConfirmResp := fun _ _ => .error "smtp down" }

/-- Like `envOK` but dialing the shipping service fails. -/
def envShipDialFail : Env :=
  { envOK with dial := fun a => if a = "shipping:50051" then .error "boom" else .ok () }

/-! ## Helper lemmas: traces -/

theorem chargeAmounts_append (t1 t2 : List Event) :
    chargeAmounts (t1 ++ t2) = chargeAmounts t1 ++ chargeAmounts t2 := by
  unfold chargeAmounts
  exact List.filterMap_append t1 t2 chargeOf

theorem chargeAmounts_getUserCart (cs : checkoutService) (env : Env) (uid : String) :
    chargeAmounts (getUserCart cs env uid).2 = [] := by
  unfold getUserCart
  cases env.dial cs.cartSvcAddr with
  | error e => rfl
  | ok u =>
    cases env.getCartResp uid with
    | error e => rfl
    | ok items => rfl

theorem chargeAmounts_emptyUserCart (cs : checkoutService) (env : Env) (uid : String) :
    chargeAmounts (emptyUserCart cs env uid).2 = [] := by
  unfold emptyUserCart
  cases env.dial cs.cartSvcAddr with
  | error e => rfl
  | ok u =>
    cases env.emptyCartResp uid with
    | error e => rfl
    | ok r => rfl

theorem chargeAmounts_convertCurrency (cs : checkoutService) (env : Env) (m : Money)
    (c : String) : chargeAmounts (convertCurrency cs env m c).2 = [] := by
  unfold convertCurrency
  cases env.dial cs.currencySvcAddr with
  | error e => rfl
  | ok u =>
    cases env.convertResp m c with
    | error e => rfl
    | ok r => rfl

theorem chargeAmounts_quoteShipping (cs : checkoutService) (env : Env) (a : Address)
    (items : List CartItem) : chargeAmounts (quoteShipping cs env a items).2 = [] := by
  unfold quoteShipping
  cases env.dial cs.shippingSvcAddr with
  | error e => rfl
  | ok u =>
    cases env.getQuoteResp a items with
    | error e => rfl
    | ok r => rfl

theorem chargeAmounts_shipOrder (cs : checkoutService) (env : Env) (a : Address)
    (items : List CartItem) : chargeAmounts (shipOrder cs env a items).2 = [] := by
  unfold shipOrder
  cases env.dial cs.shippingSvcAddr with
  | error e => rfl
  | ok u =>
    cases env.shipOrderResp a items with
    | error e => rfl
    | ok r => rfl

theorem chargeAmounts_sendOrderConfirmation (cs : checkoutService) (env : Env)
    (email : String) (order : OrderResult) :
    chargeAmounts (sendOrderConfirmation cs env email order).2 = [] := by
  unfold sendOrderConfirmation
  cases env.dial cs.emailSvcAddr with
  | error e => rfl
  | ok u =>
    cases env.sendConfirmResp email order with
    | error e => rfl
    | ok r => rfl

theorem chargeAmounts_cons_of_none (e : Event) (t : List Event) (h : chargeOf e = none) :
    chargeAmounts (e :: t) = chargeAmounts t := by
  unfold chargeAmounts
  rw [List.filterMap_cons, h]


theorem chargeAmounts_prepOrderItemsLoop (cs : checkoutService) (env : Env)
    (cur : String) (items : List CartItem) :
    chargeAmounts (prepOrderItemsLoop cs env cur items).2 = [] := by
  induction items with
  | nil => rfl
  | cons item rest ih =>
    unfold prepOrderItemsLoop
    cases env.getProductResp item.productId with
    | error e => rfl
    | ok p =>
      dsimp only
      cases hcv : convertCurrency cs env p.priceUsd cur with
      | mk r t2 =>
        have hc := chargeAmounts_convertCurrency cs env p.priceUsd cur
        rw [hcv] at hc
        replace hc : chargeAmounts t2 = [] := hc
        cases r with
        | error e =>
          dsimp only
          rw [chargeAmounts_cons_of_none
            (Event.rpc cs.productCatalogSvcAddr (RPC.getProduct item.productId)) t2 rfl]
          exact hc
        | ok price =>
          cases hl : prepOrderItemsLoop cs env cur rest with
          | mk r3 t3 =>
            rw [hl] at ih
            replace ih : chargeAmounts t3 = [] := ih
            cases r3 with
            | error e =>
              dsimp only
              rw [chargeAmounts_cons_of_none
                (Event.rpc cs.productCatalogSvcAddr (RPC.getProduct item.productId)) (t2 ++ t3) rfl,
                chargeAmounts_append, hc, ih]
              rfl
            | ok out =>
              dsimp only
              rw [chargeAmounts_cons_of_none
                (Event.rpc cs.productCatalogSvcAddr (RPC.getProduct item.productId)) (t2 ++ t3) rfl,
                chargeAmounts_append, hc, ih]
              rfl

theorem chargeAmounts_prepOrderItems (cs : checkoutService) (env : Env)
    (items : List CartItem) (cur : String) :
    chargeAmounts (prepOrderItems cs env items cur).2 = [] := by
  unfold prepOrderItems
  cases env.dial cs.productCatalogSvcAddr with
  | error e => rfl
  | ok u =>
    dsimp only
    cases hl : prepOrderItemsLoop cs env cur items with
    | mk r t =>
      have hc := chargeAmounts_prepOrderItemsLoop cs env cur items
      rw [hl] at hc
      replace hc : chargeAmounts t = [] := hc
      dsimp only
      rw [chargeAmounts_cons_of_none (Event.dial cs.productCatalogSvcAddr)
        (t ++ [Event.close cs.productCatalogSvcAddr]) rfl, chargeAmounts_append, hc]
      rfl

theorem chargeAmounts_prepare (cs : checkoutService) (env : Env)
    (uid cur : String) (address : Address) :
    chargeAmounts (prepareOrderItemsAndShippingQuoteFromCart cs env uid cur address).2 = [] := by
  unfold prepareOrderItemsAndShippingQuoteFromCart
  cases hg : getUserCart cs env uid with
  | mk r1 t1 =>
    have h1 := chargeAmounts_getUserCart cs env uid
    rw [hg] at h1
    replace h1 : chargeAmounts t1 = [] := h1
    cases r1 with
    | error e => exact h1
    | ok cartItems =>
      dsimp only
      cases hp : prepOrderItems cs env cartItems cur with
      | mk r2 t2 =>
        have h2 := chargeAmounts_prepOrderItems cs env cartItems cur
        rw [hp] at h2
        replace h2 : chargeAmounts t2 = [] := h2
        cases r2 with
        | error e =>
          dsimp only
          rw [chargeAmounts_append, h1, h2]
          rfl
        | ok orderItems =>
          dsimp only
          cases hq : quoteShipping cs env address cartItems with
          | mk r3 t3 =>
            have h3 := chargeAmounts_quoteShipping cs env address cartItems
            rw [hq] at h3
            replace h3 : chargeAmounts t3 = [] := h3
            cases r3 with
            | error e =>
              dsimp only
              rw [chargeAmounts_append, chargeAmounts_append, h1, h2, h3]
              rfl
            | ok shippingUSD =>
              dsimp only
              cases hcv : convertCurrency cs env shippingUSD cur with
              | mk r4 t4 =>
                have h4 := chargeAmounts_convertCurrency cs env shippingUSD cur
                rw [hcv] at h4
                replace h4 : chargeAmounts t4 = [] := h4
                cases r4 with
                | error e =>
                  dsimp only
                  rw [chargeAmounts_append, chargeAmounts_append, chargeAmounts_append,
                    h1, h2, h3, h4]
                  rfl
                | ok shippingPrice =>
                  dsimp only
                  rw [chargeAmounts_append, chargeAmounts_append, chargeAmounts_append,
                    h1, h2, h3, h4]
                  rfl

theorem chargeAmounts_chargeCard_ok (cs : checkoutService) (env : Env) (amount : Money)
    (card : CreditCardInfo) (tx : String) (t : List Event)
    (h : chargeCard cs env amount card = (.ok tx, t)) :
    chargeAmounts t = [amount] := by
  unfold chargeCard at h
  cases hd : env.dial cs.paymentSvcAddr with
  | error e => rw [hd] at h; simp at h
  | ok u =>
    rw [hd] at h
    cases hr : env.chargeResp amount card with
    | error e => rw [hr] at h; simp at h
    | ok txid =>
      rw [hr] at h
      simp only [Prod.mk.injEq] at h
      rw [← h.2]
      rfl

/-! ## Helper lemmas: order preparation -/

theorem convertCurrency_ok_inv (cs : checkoutService) (env : Env) (m : Money) (c : String)
    (r : Money) (h : (convertCurrency cs env m c).1 = .ok r) :
    env.convertResp m c = .ok r := by
  unfold convertCurrency at h
  cases hd : env.dial cs.currencySvcAddr with
  | error e => rw [hd] at h; simp at h
  | ok u =>
    rw [hd] at h
    cases hr : env.convertResp m c with
    | error e => rw [hr] at h; simp at h
    | ok res => rw [hr] at h; simp only [Except.ok.injEq] at h; rw [h]

/-- Pointwise description of a successful preparation loop: each output
order item pairs the corresponding input cart item with the localized cost
obtained from the catalog price of that item. -/
theorem prepOrderItemsLoop_ok (cs : checkoutService) (env : Env) (cur : String) :
    ∀ (items : List CartItem) (out : List OrderItem) (t : List Event),
      prepOrderItemsLoop cs env cur items = (.ok out, t) →
      List.Forall₂ (fun oi ci => oi.item = ci ∧
        ∃ p, env.getProductResp ci.productId = .ok p ∧
          (convertCurrency cs env p.priceUsd cur).1 = .ok oi.cost) out items := by
  intro items
  induction items with
  | nil =>
    intro out t h
    unfold prepOrderItemsLoop at h
    simp only [Prod.mk.injEq, Except.ok.injEq] at h
    rw [← h.1]
    exact List.Forall₂.nil
  | cons item rest ih =>
    intro out t h
    unfold prepOrderItemsLoop at h
    cases hgp : env.getProductResp item.productId with
    | error e => rw [hgp] at h; simp at h
    | ok p =>
      rw [hgp] at h
      dsimp only at h
      cases hcv : convertCurrency cs env p.priceUsd cur with
      | mk r t2 =>
        rw [hcv] at h
        cases r with
        | error e => simp at h
        | ok price =>
          dsimp only at h
          cases hl : prepOrderItemsLoop cs env cur rest with
          | mk r3 t3 =>
            rw [hl] at h
            cases r3 with
            | error e => simp at h
            | ok out3 =>
              simp only [Prod.mk.injEq, Except.ok.injEq] at h
              rw [← h.1]
              refine List.Forall₂.cons ⟨rfl, p, hgp, ?_⟩ (ih out3 t3 hl)
              rw [hcv]

/-- The catalog lookup or the currency localization of this single cart item
fails (the latter by failing to dial the currency service or by the
conversion RPC itself failing). -/
def itemPrepFails (cs : checkoutService) (env : Env) (cur : String) (it : CartItem) : Prop :=
  (∃ e, env.getProductResp it.productId = .error e) ∨
  (∃ p, env.getProductResp it.productId = .ok p ∧
    ((∃ e, env.dial cs.currencySvcAddr = .error e) ∨
     (∃ e, env.convertResp p.priceUsd cur = .error e)))

theorem convertCurrency_fails (cs : checkoutService) (env : Env) (m : Money) (c : String)
    (h : (∃ e, env.dial cs.currencySvcAddr = .error e) ∨
      (∃ e, env.convertResp m c = .error e)) :
    ∃ e, (convertCurrency cs env m c).1 = .error e := by
  unfold convertCurrency
  cases hd : env.dial cs.currencySvcAddr with
  | error e => exact ⟨_, rfl⟩
  | ok u =>
    cases hr : env.convertResp m c with
    | error e => exact ⟨_, rfl⟩
    | ok res =>
      rcases h with ⟨e, he⟩ | ⟨e, he⟩
      · rw [hd] at he; exact absurd he (by simp)
      · rw [hr] at he; exact absurd he (by simp)

/-- If any single cart item's lookup or localization fails, the whole
preparation loop fails. -/
theorem prepOrderItemsLoop_fails (cs : checkoutService) (env : Env) (cur : String) :
    ∀ (items : List CartItem), (∃ it ∈ items, itemPrepFails cs env cur it) →
      ∃ e, (prepOrderItemsLoop cs env cur items).1 = .error e := by
  intro items
  induction items with
  | nil => rintro ⟨it, hm, _⟩; exact absurd hm (List.not_mem_nil it)
  | cons item rest ih =>
    rintro ⟨it, hm, hf⟩
    unfold prepOrderItemsLoop
    cases hgp : env.getProductResp item.productId with
    | error e => exact ⟨_, rfl⟩
    | ok p =>
      dsimp only
      cases hcv : convertCurrency cs env p.priceUsd cur with
      | mk r t2 =>
        cases r with
        | error e => exact ⟨_, rfl⟩
        | ok price =>
          cases hl : prepOrderItemsLoop cs env cur rest with
          | mk r3 t3 =>
            cases r3 with
            | error e => exact ⟨_, rfl⟩
            | ok out =>
              exfalso
              rcases List.mem_cons.mp hm with rfl | hmRest
              · rcases hf with ⟨e, he⟩ | ⟨p2, hp2, hrest⟩
                · rw [hgp] at he; exact absurd he (by simp)
                · rw [hgp] at hp2
                  simp only [Except.ok.injEq] at hp2
                  obtain ⟨e, hee⟩ := convertCurrency_fails cs env p.priceUsd cur (by rw [hp2]; exact hrest)
                  rw [hcv] at hee
                  exact absurd hee (by simp)
              · obtain ⟨e, he⟩ := ih ⟨it, hmRest, hf⟩
                rw [hl] at he
                exact absurd he (by simp)

/-! ## Helper lemmas: total computation -/

theorem sumCosts_ok (cur : String) :
    ∀ (items : List OrderItem) (acc : Money), acc.currencyCode = cur →
      (∀ it ∈ items, it.cost.currencyCode = cur) →
      ∃ t, sumCosts acc items = .ok t ∧ t.currencyCode = cur := by
  intro items
  induction items with
  | nil => intro acc hacc _; exact ⟨acc, rfl, hacc⟩
  | cons it rest ih =>
    intro acc hacc hall
    obtain ⟨c, hok, hcur⟩ := Sum_currency_ok
      (a := acc) (b := it.cost) (by rw [hacc, hall it (List.mem_cons_self it rest)])
    unfold sumCosts
    rw [hok]
    exact ih c (by rw [hcur, hacc]) (fun x hx => hall x (List.mem_cons_of_mem it hx))

/-- The ComputeTotal step succeeds whenever the localized shipping cost and
every order item's cost are denominated in the user currency. -/
theorem computeTotal_ok (cur : String) (shipping : Money) (items : List OrderItem)
    (hship : shipping.currencyCode = cur)
    (hitems : ∀ it ∈ items, it.cost.currencyCode = cur) :
    ∃ t, computeTotal cur shipping items = .ok t ∧ t.currencyCode = cur := by
  obtain ⟨c, hok, hcur⟩ := Sum_currency_ok (a := ⟨cur, 0, 0⟩) (b := shipping) hship.symm
  unfold computeTotal
  rw [hok]
  exact sumCosts_ok cur items c hcur hitems

theorem specSumCosts_map (items : List OrderItem) :
    ∀ acc, specSumCosts acc (items.map OrderItem.cost) = sumCosts acc items := by
  induction items with
  | nil => intro acc; rfl
  | cons it rest ih =>
    intro acc
    unfold specSumCosts sumCosts
    simp only [List.map_cons]
    cases money.Sum acc it.cost with
    | error e => rfl
    | ok acc2 => exact ih acc2

/-- The independent spec-side reconstruction of the total coincides with the
code's ComputeTotal step. -/
theorem specTotal_eq_computeTotal (cur : String) (shipping : Money)
    (items : List OrderItem) :
    specTotal cur shipping (items.map OrderItem.cost) = computeTotal cur shipping items := by
  unfold specTotal computeTotal
  cases money.Sum ⟨cur, 0, 0⟩ shipping with
  | error e => rfl
  | ok t => exact specSumCosts_map items t

/-- ComputeTotal over an empty item list with a valid shipping cost in the
user currency is that shipping cost itself. -/
theorem computeTotal_nil (cur : String) (s : Money) (hv : IsValid s)
    (hc : s.currencyCode = cur) :
    computeTotal cur s [] = .ok s := by
  unfold computeTotal
  rw [Sum_zero hv hc]
  rfl

/-! ## Helper lemmas: PlaceOrder path characterizations -/

theorem PlaceOrder_prepFail (cs : checkoutService) (env : Env) (req : PlaceOrderRequest)
    (u e : String) (t1 : List Event)
    (hu : env.newUUID = .ok u)
    (hprep : prepareOrderItemsAndShippingQuoteFromCart cs env req.userId req.userCurrency
      req.address = (.error e, t1)) :
    PlaceOrder cs env req = (.fail .internal e, t1) := by
  unfold PlaceOrder
  rw [hu]
  dsimp only
  rw [hprep]

theorem PlaceOrder_panic (cs : checkoutService) (env : Env) (req : PlaceOrderRequest)
    (u : String) (prep : orderPrep) (t1 : List Event)
    (hu : env.newUUID = .ok u)
    (hprep : prepareOrderItemsAndShippingQuoteFromCart cs env req.userId req.userCurrency
      req.address = (.ok prep, t1))
    (hm : money.Must (computeTotal req.userCurrency prep.shippingCostLocalized
      prep.orderItems) = none) :
    PlaceOrder cs env req = (.panic, t1) := by
  unfold PlaceOrder
  rw [hu]
  dsimp only
  rw [hprep]
  dsimp only
  rw [hm]

theorem PlaceOrder_chargeFail (cs : checkoutService) (env : Env) (req : PlaceOrderRequest)
    (u : String) (prep : orderPrep) (t1 : List Event) (total : Money) (e : String)
    (t2 : List Event)
    (hu : env.newUUID = .ok u)
    (hprep : prepareOrderItemsAndShippingQuoteFromCart cs env req.userId req.userCurrency
      req.address = (.ok prep, t1))
    (hm : money.Must (computeTotal req.userCurrency prep.shippingCostLocalized
      prep.orderItems) = some total)
    (hch : chargeCard cs env total req.creditCard = (.error e, t2)) :
    PlaceOrder cs env req = (.fail .internal ("failed to charge card: " ++ e), t1 ++ t2) := by
  unfold PlaceOrder
  rw [hu]
  dsimp only
  rw [hprep]
  dsimp only
  rw [hm]
  dsimp only
  rw [hch]

theorem PlaceOrder_shipFail (cs : checkoutService) (env : Env) (req : PlaceOrderRequest)
    (u : String) (prep : orderPrep) (t1 : List Event) (total : Money) (tx : String)
    (t2 : List Event) (e : String) (t3 : List Event)
    (hu : env.newUUID = .ok u)
    (hprep : prepareOrderItemsAndShippingQuoteFromCart cs env req.userId req.userCurrency
      req.address = (.ok prep, t1))
    (hm : money.Must (computeTotal req.userCurrency prep.shippingCostLocalized
      prep.orderItems) = some total)
    (hch : chargeCard cs env total req.creditCard = (.ok tx, t2))
    (hsh : shipOrder cs env req.address prep.cartItems = (.error e, t3)) :
    PlaceOrder cs env req = (.fail .unavailable ("shipping error: " ++ e), t1 ++ t2 ++ t3) := by
  unfold PlaceOrder
  rw [hu]
  dsimp only
  rw [hprep]
  dsimp only
  rw [hm]
  dsimp only
  rw [hch]
  dsimp only
  rw [hsh]

theorem PlaceOrder_success (cs : checkoutService) (env : Env) (req : PlaceOrderRequest)
    (u : String) (prep : orderPrep) (t1 : List Event) (total : Money) (tx : String)
    (t2 : List Event) (track : String) (t3 : List Event)
    (hu : env.newUUID = .ok u)
    (hprep : prepareOrderItemsAndShippingQuoteFromCart cs env req.userId req.userCurrency
      req.address = (.ok prep, t1))
    (hm : money.Must (computeTotal req.userCurrency prep.shippingCostLocalized
      prep.orderItems) = some total)
    (hch : chargeCard cs env total req.creditCard = (.ok tx, t2))
    (hsh : shipOrder cs env req.address prep.cartItems = (.ok track, t3)) :
    PlaceOrder cs env req =
      (.ok ⟨⟨u, track, prep.shippingCostLocalized, req.address, prep.orderItems⟩⟩,
        t1 ++ t2 ++ t3 ++ (emptyUserCart cs env req.userId).2 ++
          (sendOrderConfirmation cs env req.email
            ⟨u, track, prep.shippingCostLocalized, req.address, prep.orderItems⟩).2) := by
  unfold PlaceOrder
  rw [hu]
  dsimp only
  rw [hprep]
  dsimp only
  rw [hm]
  dsimp only
  rw [hch]
  dsimp only
  rw [hsh]

/-- Inversion: a successful PlaceOrder run determines all intermediate
results. -/
theorem PlaceOrder_ok_inv (cs : checkoutService) (env : Env) (req : PlaceOrderRequest)
    (resp : PlaceOrderResponse) (t : List Event)
    (h : PlaceOrder cs env req = (.ok resp, t)) :
    ∃ u prep t1 total tx t2 track t3,
      env.newUUID = .ok u ∧
      prepareOrderItemsAndShippingQuoteFromCart cs env req.userId req.userCurrency
        req.address = (.ok prep, t1) ∧
      money.Must (computeTotal req.userCurrency prep.shippingCostLocalized
        prep.orderItems) = some total ∧
      chargeCard cs env total req.creditCard = (.ok tx, t2) ∧
      shipOrder cs env req.address prep.cartItems = (.ok track, t3) ∧
      resp = ⟨⟨u, track, prep.shippingCostLocalized, req.address, prep.orderItems⟩⟩ ∧
      t = t1 ++ t2 ++ t3 ++ (emptyUserCart cs env req.userId).2 ++
        (sendOrderConfirmation cs env req.email resp.order).2 := by
  unfold PlaceOrder at h
  cases hu : env.newUUID with
  | error e => rw [hu] at h; simp at h
  | ok u =>
    rw [hu] at h
    dsimp only at h
    cases hprep : prepareOrderItemsAndShippingQuoteFromCart cs env req.userId
        req.userCurrency req.address with
    | mk r1 t1 =>
      rw [hprep] at h
      cases r1 with
      | error e => simp at h
      | ok prep =>
        dsimp only at h
        cases hm : money.Must (computeTotal req.userCurrency prep.shippingCostLocalized
            prep.orderItems) with
        | none => rw [hm] at h; simp at h
        | some total =>
          rw [hm] at h
          dsimp only at h
          cases hch : chargeCard cs env total req.creditCard with
          | mk r2 t2 =>
            rw [hch] at h
            cases r2 with
            | error e => simp at h
            | ok tx =>
              dsimp only at h
              cases hsh : shipOrder cs env req.address prep.cartItems with
              | mk r3 t3 =>
                rw [hsh] at h
                cases r3 with
                | error e => simp at h
                | ok track =>
                  dsimp only at h
                  simp only [Prod.mk.injEq, Outcome.ok.injEq] at h
                  refine ⟨u, prep, t1, total, tx, t2, track, t3, rfl, rfl, hm, hch, hsh,
                    h.1.symm, ?_⟩
                  rw [← h.2, ← h.1]

/-! ## Helper lemmas: adapter connection discipline -/

def isGetCartEvent : Event → Bool
  | .rpc _ (.getCart _) => true
  | _ => false

def isEmptyCartEvent : Event → Bool
  | .rpc _ (.emptyCart _) => true
  | _ => false

def isConvertEvent : Event → Bool
  | .rpc _ (.convert _ _) => true
  | _ => false

def isGetQuoteEvent : Event → Bool
  | .rpc _ (.getQuote _ _) => true
  | _ => false

def isShipOrderEvent : Event → Bool
  | .rpc _ (.shipOrder _ _) => true
  | _ => false

def isChargeEvent : Event → Bool
  | .rpc _ (.charge _ _) => true
  | _ => false

def isSendConfirmEvent : Event → Bool
  | .rpc _ (.sendOrderConfirmation _ _) => true
  | _ => false

theorem adapterTrace3 (addr : String) (r : RPC) (p : Event → Bool)
    (hd : p (.dial addr) = false) (hr : p (.rpc addr r) = true)
    (hc : p (.close addr) = false) :
    startsWithDial addr [.dial addr, .rpc addr r, .close addr] ∧
    endsWithClose addr [.dial addr, .rpc addr r, .close addr] ∧
    closeCountAt addr [.dial addr, .rpc addr r, .close addr] = 1 ∧
    (([.dial addr, .rpc addr r, .close addr] : List Event).filter p).length = 1 := by
  refine ⟨rfl, rfl, ?_, ?_⟩
  · simp [closeCountAt]
  · simp [List.filter, hd, hr, hc]

/-- Connection discipline and error wrapping of the cart-fetch adapter. -/
theorem getUserCart_shape (cs : checkoutService) (env : Env) (uid : String) :
    adapterCallShape cs.cartSvcAddr (env.dial cs.cartSvcAddr) isGetCartEvent 1
      (getUserCart cs env uid).2 ∧
    (∀ m, (getUserCart cs env uid).1 = .error m →
      (∃ e, m = "could not connect cart service: " ++ e) ∨
      (∃ e, m = "failed to get user cart during checkout: " ++ e)) := by
  unfold getUserCart adapterCallShape
  cases env.dial cs.cartSvcAddr with
  | error e =>
    refine ⟨rfl, fun m hm => ?_⟩
    simp only [Except.error.injEq] at hm
    exact .inl ⟨e, hm.symm⟩
  | ok u =>
    cases env.getCartResp uid with
    | error e =>
      refine ⟨adapterTrace3 _ _ _ rfl rfl rfl, fun m hm => ?_⟩
      simp only [Except.error.injEq] at hm
      exact .inr ⟨e, hm.symm⟩
    | ok items =>
      exact ⟨adapterTrace3 _ _ _ rfl rfl rfl, fun m hm => by simp at hm⟩

/-- Connection discipline and error wrapping of the cart-emptying adapter. -/
theorem emptyUserCart_shape (cs : checkoutService) (env : Env) (uid : String) :
    adapterCallShape cs.cartSvcAddr (env.dial cs.cartSvcAddr) isEmptyCartEvent 1
      (emptyUserCart cs env uid).2 ∧
    (∀ m, (emptyUserCart cs env uid).1 = .error m →
      (∃ e, m = "could not connect cart service: " ++ e) ∨
      (∃ e, m = "failed to empty user cart during checkout: " ++ e)) := by
  unfold emptyUserCart adapterCallShape
  cases env.dial cs.cartSvcAddr with
  | error e =>
    refine ⟨rfl, fun m hm => ?_⟩
    simp only [Except.error.injEq] at hm
    exact .inl ⟨e, hm.symm⟩
  | ok u =>
    cases env.emptyCartResp uid with
    | error e =>
      refine ⟨adapterTrace3 _ _ _ rfl rfl rfl, fun m hm => ?_⟩
      simp only [Except.error.injEq] at hm
      exact .inr ⟨e, hm.symm⟩
    | ok r =>
      exact ⟨adapterTrace3 _ _ _ rfl rfl rfl, fun m hm => by simp at hm⟩

/-- Connection discipline and error wrapping of the currency-conversion
adapter. -/
theorem convertCurrency_shape (cs : checkoutService) (env : Env) (m0 : Money) (c : String) :
    adapterCallShape cs.currencySvcAddr (env.dial cs.currencySvcAddr) isConvertEvent 1
      (convertCurrency cs env m0 c).2 ∧
    (∀ m, (convertCurrency cs env m0 c).1 = .error m →
      (∃ e, m = "could not connect currency service: " ++ e) ∨
      (∃ e, m = "failed to convert currency: " ++ e)) := by
  unfold convertCurrency adapterCallShape
  cases env.dial cs.currencySvcAddr with
  | error e =>
    refine ⟨rfl, fun m hm => ?_⟩
    simp only [Except.error.injEq] at hm
    exact .inl ⟨e, hm.symm⟩
  | ok u =>
    cases env.convertResp m0 c with
    | error e =>
      refine ⟨adapterTrace3 _ _ _ rfl rfl rfl, fun m hm => ?_⟩
      simp only [Except.error.injEq] at hm
      exact .inr ⟨e, hm.symm⟩
    | ok r =>
      exact ⟨adapterTrace3 _ _ _ rfl rfl rfl, fun m hm => by simp at hm⟩

/-- Connection discipline and error wrapping of the shipping-quote adapter. -/
theorem quoteShipping_shape (cs : checkoutService) (env : Env) (a : Address)
    (items : List CartItem) :
    adapterCallShape cs.shippingSvcAddr (env.dial cs.shippingSvcAddr) isGetQuoteEvent 1
      (quoteShipping cs env a items).2 ∧
    (∀ m, (quoteShipping cs env a items).1 = .error m →
      (∃ e, m = "could not connect shipping service: " ++ e) ∨
      (∃ e, m = "failed to get shipping quote: " ++ e)) := by
  unfold quoteShipping adapterCallShape
  cases env.dial cs.shippingSvcAddr with
  | error e =>
    refine ⟨rfl, fun m hm => ?_⟩
    simp only [Except.error.injEq] at hm
    exact .inl ⟨e, hm.symm⟩
  | ok u =>
    cases env.getQuoteResp a items with
    | error e =>
      refine ⟨adapterTrace3 _ _ _ rfl rfl rfl, fun m hm => ?_⟩
      simp only [Except.error.injEq] at hm
      exact .inr ⟨e, hm.symm⟩
    | ok r =>
      exact ⟨adapterTrace3 _ _ _ rfl rfl rfl, fun m hm => by simp at hm⟩

/-- Connection discipline and error wrapping of the ship-order adapter.  Its
dial-failure message names the EMAIL service (the source's copy-paste
slip). -/
theorem shipOrder_shape (cs : checkoutService) (env : Env) (a : Address)
    (items : List CartItem) :
    adapterCallShape cs.shippingSvcAddr (env.dial cs.shippingSvcAddr) isShipOrderEvent 1
      (shipOrder cs env a items).2 ∧
    (∀ m, (shipOrder cs env a items).1 = .error m →
      (∃ e, m = "failed to connect email service: " ++ e) ∨
      (∃ e, m = "shipment failed: " ++ e)) := by
  unfold shipOrder adapterCallShape
  cases env.dial cs.shippingSvcAddr with
  | error e =>
    refine ⟨rfl, fun m hm => ?_⟩
    simp only [Except.error.injEq] at hm
    exact .inl ⟨e, hm.symm⟩
  | ok u =>
    cases env.shipOrderResp a items with
    | error e =>
      refine ⟨adapterTrace3 _ _ _ rfl rfl rfl, fun m hm => ?_⟩
      simp only [Except.error.injEq] at hm
      exact .inr ⟨e, hm.symm⟩
    | ok r =>
      exact ⟨adapterTrace3 _ _ _ rfl rfl rfl, fun m hm => by simp at hm⟩

/-- Connection discipline and error wrapping of the payment adapter. -/
theorem chargeCard_shape (cs : checkoutService) (env : Env) (amount : Money)
    (card : CreditCardInfo) :
    adapterCallShape cs.paymentSvcAddr (env.dial cs.paymentSvcAddr) isChargeEvent 1
      (chargeCard cs env amount card).2 ∧
    (∀ m, (chargeCard cs env amount card).1 = .error m →
      (∃ e, m = "failed to connect payment service: " ++ e) ∨
      (∃ e, m = "could not charge the card: " ++ e)) := by
  unfold chargeCard adapterCallShape
  cases env.dial cs.paymentSvcAddr with
  | error e =>
    refine ⟨rfl, fun m hm => ?_⟩
    simp only [Except.error.injEq] at hm
    exact .inl ⟨e, hm.symm⟩
  | ok u =>
    cases env.chargeResp amount card with
    | error e =>
      refine ⟨adapterTrace3 _ _ _ rfl rfl rfl, fun m hm => ?_⟩
      simp only [Except.error.injEq] at hm
      exact .inr ⟨e, hm.symm⟩
    | ok r =>
      exact ⟨adapterTrace3 _ _ _ rfl rfl rfl, fun m hm => by simp at hm⟩

/-- Connection discipline and error behavior of the confirmation-email
adapter.  Its RPC error is surfaced UNWRAPPED (`return err` in the
source). -/
theorem sendOrderConfirmation_shape (cs : checkoutService) (env : Env) (em : String)
    (o : OrderResult) :
    adapterCallShape cs.emailSvcAddr (env.dial cs.emailSvcAddr) isSendConfirmEvent 1
      (sendOrderConfirmation cs env em o).2 ∧
    (∀ m, (sendOrderConfirmation cs env em o).1 = .error m →
      (∃ e, m = "failed to connect email service: " ++ e) ∨
      env.sendConfirmResp em o = .error m) := by
  unfold sendOrderConfirmation adapterCallShape
  cases env.dial cs.emailSvcAddr with
  | error e =>
    refine ⟨rfl, fun m hm => ?_⟩
    simp only [Except.error.injEq] at hm
    exact .inl ⟨e, hm.symm⟩
  | ok u =>
    cases hr : env.sendConfirmResp em o with
    | error e =>
      refine ⟨adapterTrace3 _ _ _ rfl rfl rfl, fun m hm => ?_⟩
      simp only [Except.error.injEq] at hm
      exact .inr (by rw [hm])
    | ok r =>
      exact ⟨adapterTrace3 _ _ _ rfl rfl rfl, fun m hm => by simp at hm⟩

theorem closeCountAt_append (a : String) (t1 t2 : List Event) :
    closeCountAt a (t1 ++ t2) = closeCountAt a t1 + closeCountAt a t2 := by
  unfold closeCountAt
  rw [List.filter_append, List.length_append]

theorem filter_append_events (p : Event → Bool) (t1 t2 : List Event) :
    (t1 ++ t2).filter p = t1.filter p ++ t2.filter p :=
  List.filter_append t1 t2

/-- The currency adapter's trace contains no `GetProduct` RPC and closes no
connection other than the currency service's. -/
theorem convertCurrency_trace (cs : checkoutService) (env : Env) (m : Money) (c : String) :
    ((convertCurrency cs env m c).2.filter isGetProductEvent) = [] ∧
    (∀ a, cs.currencySvcAddr ≠ a → closeCountAt a (convertCurrency cs env m c).2 = 0) := by
  unfold convertCurrency
  cases env.dial cs.currencySvcAddr with
  | error e => exact ⟨rfl, fun a ha => rfl⟩
  | ok u =>
    cases env.convertResp m c with
    | error e =>
      refine ⟨rfl, fun a ha => ?_⟩
      simp [closeCountAt, List.filter, beq_eq_false_iff_ne.mpr ha]
    | ok r =>
      refine ⟨rfl, fun a ha => ?_⟩
      simp [closeCountAt, List.filter, beq_eq_false_iff_ne.mpr ha]

/-- Trace facts about the preparation loop: on success it issues one
`GetProduct` RPC per cart item, and it never closes the product-catalog
connection (only inner currency connections). -/
theorem prepOrderItemsLoop_trace (cs : checkoutService) (env : Env) (cur : String)
    (hne : cs.currencySvcAddr ≠ cs.productCatalogSvcAddr) :
    ∀ items : List CartItem,
      (∀ out t, prepOrderItemsLoop cs env cur items = (.ok out, t) →
        (t.filter isGetProductEvent).length = items.length) ∧
      closeCountAt cs.productCatalogSvcAddr (prepOrderItemsLoop cs env cur items).2 = 0 := by
  intro items
  induction items with
  | nil =>
    refine ⟨fun out t h => ?_, rfl⟩
    unfold prepOrderItemsLoop at h
    simp only [Prod.mk.injEq] at h
    rw [← h.2]
    rfl
  | cons item rest ih =>
    unfold prepOrderItemsLoop
    cases hgp : env.getProductResp item.productId with
    | error e =>
      exact ⟨fun out t h => by simp at h, rfl⟩
    | ok p =>
      dsimp only
      obtain ⟨hcv1, hcv2⟩ := convertCurrency_trace cs env p.priceUsd cur
      cases hcv : convertCurrency cs env p.priceUsd cur with
      | mk r t2 =>
        rw [hcv] at hcv1 hcv2
        replace hcv1 : t2.filter isGetProductEvent = [] := hcv1
        replace hcv2 : closeCountAt cs.productCatalogSvcAddr t2 = 0 := hcv2 _ hne
        cases r with
        | error e =>
          refine ⟨fun out t h => by simp at h, ?_⟩
          show closeCountAt cs.productCatalogSvcAddr
            (Event.rpc cs.productCatalogSvcAddr (RPC.getProduct item.productId) :: t2) = 0
          simpa [closeCountAt, List.filter] using hcv2
        | ok price =>
          obtain ⟨ihOk, ihClose⟩ := ih
          cases hl : prepOrderItemsLoop cs env cur rest with
          | mk r3 t3 =>
            rw [hl] at ihOk ihClose
            replace ihClose : closeCountAt cs.productCatalogSvcAddr t3 = 0 := ihClose
            cases r3 with
            | error e =>
              refine ⟨fun out t h => by simp at h, ?_⟩
              show closeCountAt cs.productCatalogSvcAddr
                (Event.rpc cs.productCatalogSvcAddr (RPC.getProduct item.productId)
                  :: (t2 ++ t3)) = 0
              have : closeCountAt cs.productCatalogSvcAddr (t2 ++ t3) = 0 := by
                rw [closeCountAt_append, hcv2, ihClose]
              simpa [closeCountAt, List.filter] using this
            | ok out3 =>
              constructor
              · intro out t h
                simp only [Prod.mk.injEq, Except.ok.injEq] at h
                rw [← h.2]
                have hrest := ihOk out3 t3 rfl
                simp [List.filter_cons, isGetProductEvent, filter_append_events, hcv1, hrest]
              · show closeCountAt cs.productCatalogSvcAddr
                  (Event.rpc cs.productCatalogSvcAddr (RPC.getProduct item.productId)
                    :: (t2 ++ t3)) = 0
                have : closeCountAt cs.productCatalogSvcAddr (t2 ++ t3) = 0 := by
                  rw [closeCountAt_append, hcv2, ihClose]
                simpa [closeCountAt, List.filter] using this

/-- Every error of the preparation loop is one of the two per-item message
forms. -/
theorem prepOrderItemsLoop_err (cs : checkoutService) (env : Env) (cur : String) :
    ∀ (items : List CartItem) (m : String) (t : List Event),
      prepOrderItemsLoop cs env cur items = (.error m, t) →
      ∃ pid, m = "failed to get product #" ++ quoteStr pid ∨
        m = "failed to convert price of " ++ quoteStr pid ++ " to " ++ cur := by
  intro items
  induction items with
  | nil => intro m t h; unfold prepOrderItemsLoop at h; simp at h
  | cons item rest ih =>
    intro m t h
    unfold prepOrderItemsLoop at h
    cases hgp : env.getProductResp item.productId with
    | error e =>
      rw [hgp] at h
      dsimp only at h
      simp only [Prod.mk.injEq, Except.error.injEq] at h
      exact ⟨item.productId, .inl h.1.symm⟩
    | ok p =>
      rw [hgp] at h
      dsimp only at h
      cases hcv : convertCurrency cs env p.priceUsd cur with
      | mk r t2 =>
        rw [hcv] at h
        cases r with
        | error e =>
          simp only [Prod.mk.injEq, Except.error.injEq] at h
          exact ⟨item.productId, .inr h.1.symm⟩
        | ok price =>
          dsimp only at h
          cases hl : prepOrderItemsLoop cs env cur rest with
          | mk r3 t3 =>
            rw [hl] at h
            cases r3 with
            | error e =>
              simp only [Prod.mk.injEq, Except.error.injEq] at h
              obtain ⟨pid, hp⟩ := ih e t3 hl
              rw [h.1] at hp
              exact ⟨pid, hp⟩
            | ok out3 => simp at h

/-- Connection discipline of the order-items preparation: a fresh catalog
connection per call, closed unconditionally once dialed, carrying one
`GetProduct` RPC per cart item on success; errors are the connect wrap or
one of the two per-item message forms. -/
theorem prepOrderItems_shape (cs : checkoutService) (env : Env) (items : List CartItem)
    (cur : String) (hne : cs.currencySvcAddr ≠ cs.productCatalogSvcAddr) :
    (∀ e, env.dial cs.productCatalogSvcAddr = .error e →
      prepOrderItems cs env items cur =
        (.error ("could not connect product catalog service: " ++ e),
          [.dial cs.productCatalogSvcAddr])) ∧
    (env.dial cs.productCatalogSvcAddr = .ok () →
      startsWithDial cs.productCatalogSvcAddr (prepOrderItems cs env items cur).2 ∧
      endsWithClose cs.productCatalogSvcAddr (prepOrderItems cs env items cur).2 ∧
      closeCountAt cs.productCatalogSvcAddr (prepOrderItems cs env items cur).2 = 1 ∧
      (∀ out, (prepOrderItems cs env items cur).1 = .ok out →
        ((prepOrderItems cs env items cur).2.filter isGetProductEvent).length
          = items.length)) ∧
    (∀ m, (prepOrderItems cs env items cur).1 = .error m →
      (∃ e, m = "could not connect product catalog service: " ++ e) ∨
      (∃ pid, m = "failed to get product #" ++ quoteStr pid ∨
        m = "failed to convert price of " ++ quoteStr pid ++ " to " ++ cur)) := by
  obtain ⟨hcount, hclose⟩ := prepOrderItemsLoop_trace cs env cur hne items
  unfold prepOrderItems
  cases hd : env.dial cs.productCatalogSvcAddr with
  | error e =>
    refine ⟨fun e2 he2 => ?_, fun hu => by simp at hu, fun m hm => ?_⟩
    · simp only [Except.error.injEq] at he2
      rw [he2]
    · simp only [Except.error.injEq] at hm
      exact .inl ⟨e, hm.symm⟩
  | ok u =>
    cases hl : prepOrderItemsLoop cs env cur items with
    | mk r t =>
      rw [hl] at hcount hclose
      replace hclose : closeCountAt cs.productCatalogSvcAddr t = 0 := hclose
      dsimp only
      refine ⟨fun e2 he2 => by simp at he2, fun hu => ⟨rfl, ?_, ?_, ?_⟩, fun m hm => ?_⟩
      · show (((Event.dial cs.productCatalogSvcAddr :: t) ++
          [Event.close cs.productCatalogSvcAddr]).getLast? =
            some (Event.close cs.productCatalogSvcAddr))
        rw [List.getLast?_concat]
      · unfold closeCountAt at hclose ⊢
        simp [List.filter_cons, List.filter_append, hclose]
      · intro out hout
        cases r with
        | error e => simp at hout
        | ok out0 =>
          have hcnt := hcount out0 t rfl
          simp [List.filter_cons, List.filter_append, isGetProductEvent, hcnt]
      · cases r with
        | error e =>
          simp only [Except.error.injEq] at hm
          obtain ⟨pid, hp⟩ := prepOrderItemsLoop_err cs env cur items e t hl
          rw [hm] at hp
          exact .inr ⟨pid, hp⟩
        | ok out0 => simp at hm

/-! ## Helper lemmas: adapter inversions -/

theorem getUserCart_ok_inv (cs : checkoutService) (env : Env) (uid : String)
    (items : List CartItem) (t : List Event)
    (h : getUserCart cs env uid = (.ok items, t)) :
    env.getCartResp uid = .ok items := by
  unfold getUserCart at h
  cases hd : env.dial cs.cartSvcAddr with
  | error e => rw [hd] at h; simp at h
  | ok u =>
    rw [hd] at h
    cases hr : env.getCartResp uid with
    | error e => rw [hr] at h; simp at h
    | ok its => rw [hr] at h; simp only [Prod.mk.injEq, Except.ok.injEq] at h; rw [h.1]

theorem prepOrderItems_ok_inv (cs : checkoutService) (env : Env) (items : List CartItem)
    (cur : String) (out : List OrderItem) (t : List Event)
    (h : prepOrderItems cs env items cur = (.ok out, t)) :
    ∃ t0, prepOrderItemsLoop cs env cur items = (.ok out, t0) := by
  unfold prepOrderItems at h
  cases hd : env.dial cs.productCatalogSvcAddr with
  | error e => rw [hd] at h; simp at h
  | ok u =>
    rw [hd] at h
    cases hl : prepOrderItemsLoop cs env cur items with
    | mk r t0 =>
      rw [hl] at h
      dsimp only at h
      simp only [Prod.mk.injEq] at h
      exact ⟨t0, by rw [h.1]⟩

/-- Inversion of a successful preparation: each stage succeeded and the
`orderPrep` fields are exactly the stages' results. -/
theorem prepare_ok_inv (cs : checkoutService) (env : Env) (uid cur : String)
    (address : Address) (prep : orderPrep) (t : List Event)
    (h : prepareOrderItemsAndShippingQuoteFromCart cs env uid cur address = (.ok prep, t)) :
    ∃ t1 t2 q t3 t4,
      getUserCart cs env uid = (.ok prep.cartItems, t1) ∧
      prepOrderItems cs env prep.cartItems cur = (.ok prep.orderItems, t2) ∧
      quoteShipping cs env address prep.cartItems = (.ok q, t3) ∧
      convertCurrency cs env q cur = (.ok prep.shippingCostLocalized, t4) := by
  unfold prepareOrderItemsAndShippingQuoteFromCart at h
  cases hg : getUserCart cs env uid with
  | mk r1 t1 =>
    rw [hg] at h
    cases r1 with
    | error e => simp at h
    | ok cartItems =>
      dsimp only at h
      cases hp : prepOrderItems cs env cartItems cur with
      | mk r2 t2 =>
        rw [hp] at h
        cases r2 with
        | error e => simp at h
        | ok orderItems =>
          dsimp only at h
          cases hq : quoteShipping cs env address cartItems with
          | mk r3 t3 =>
            rw [hq] at h
            cases r3 with
            | error e => simp at h
            | ok shippingUSD =>
              dsimp only at h
              cases hcv : convertCurrency cs env shippingUSD cur with
              | mk r4 t4 =>
                rw [hcv] at h
                cases r4 with
                | error e => simp at h
                | ok shippingPrice =>
                  dsimp only at h
                  simp only [Prod.mk.injEq, Except.ok.injEq] at h
                  rw [← h.1]
                  exact ⟨t1, t2, shippingUSD, t3, t4, rfl, hp, hq, hcv⟩

/-- If any single cart item's lookup or localization fails, `prepOrderItems`
as a whole fails. -/
theorem prepOrderItems_fails (cs : checkoutService) (env : Env) (items : List CartItem)
    (cur : String) (hf : ∃ it ∈ items, itemPrepFails cs env cur it) :
    ∃ e, (prepOrderItems cs env items cur).1 = .error e := by
  unfold prepOrderItems
  cases env.dial cs.productCatalogSvcAddr with
  | error e => exact ⟨_, rfl⟩
  | ok u =>
    obtain ⟨e, he⟩ := prepOrderItemsLoop_fails cs env cur items hf
    cases hl : prepOrderItemsLoop cs env cur items with
    | mk r t =>
      rw [hl] at he
      replace he : r = .error e := he
      rw [he]
      exact ⟨e, rfl⟩

/-! ## Claim theorems -/

/-- C9: For all Money pairs with the same currency code (within the data
model's nanos invariant), Sum is commutative and associative, and its result
is normalized: nanos magnitude strictly below 1,000,000,000 and sign equal
to the units' sign or zero; for all pairs whose currency codes differ, Sum
fails with CurrencyMismatch. -/
theorem C9_sum_algebra :
    (∀ a b : Money, IsValid a → IsValid b → a.currencyCode = b.currencyCode →
      money.Sum a b = money.Sum b a) ∧
    (∀ a b c : Money, IsValid a → IsValid b → IsValid c →
      a.currencyCode = b.currencyCode → b.currencyCode = c.currencyCode →
      ∃ ab bc t, money.Sum a b = .ok ab ∧ money.Sum b c = .ok bc ∧
        money.Sum ab c = .ok t ∧ money.Sum a bc = .ok t) ∧
    (∀ a b s : Money, IsValid a → IsValid b → a.currencyCode = b.currencyCode →
      money.Sum a b = .ok s →
      -1000000000 < s.nanos ∧ s.nanos < 1000000000 ∧
        (0 < s.units → 0 ≤ s.nanos) ∧ (s.units < 0 → s.nanos ≤ 0)) ∧
    (∀ a b : Money, a.currencyCode ≠ b.currencyCode →
      money.Sum a b = .error .currencyMismatch) := by
  refine ⟨fun a b _ _ hc => Sum_comm hc, ?_, ?_, fun a b hc => Sum_mismatch hc⟩
  · intro a b c ha hb hcv hab hbc
    obtain ⟨ab, hab1, habv, habt, habc⟩ := Sum_ok ha hb hab
    obtain ⟨bc, hbc1, hbcv, hbct, hbcc⟩ := Sum_ok hb hcv hbc
    obtain ⟨t1, ht1, ht1v, ht1t, ht1c⟩ := Sum_ok habv hcv (by rw [habc, hab, hbc])
    obtain ⟨t2, ht2, ht2v, ht2t, ht2c⟩ := Sum_ok ha hbcv (by rw [hbcc, hab])
    have : t1 = t2 := valid_total_inj ht1v ht2v (by rw [ht1c, ht2c, habc])
      (by rw [ht1t, ht2t, habt, hbct]; omega)
    exact ⟨ab, bc, t1, hab1, hbc1, ht1, by rw [this]; exact ht2⟩
  · intro a b s ha hb hc hab
    obtain ⟨c, hok, hv, _, _⟩ := Sum_ok ha hb hc
    rw [hok] at hab
    simp only [Except.ok.injEq] at hab
    rw [← hab]
    unfold IsValid at hv
    exact ⟨by omega, by omega, hv.2.2.1, hv.2.2.2⟩

/-- C9 witness: the laws applied at concrete valid inputs. -/
theorem C9_sum_algebra_witness :
    money.Sum ⟨"EUR", 2, 500000000⟩ ⟨"EUR", 3, 700000000⟩
      = money.Sum ⟨"EUR", 3, 700000000⟩ ⟨"EUR", 2, 500000000⟩ ∧
    money.Sum ⟨"USD", 1, 0⟩ ⟨"EUR", 1, 0⟩ = .error .currencyMismatch := by
  constructor
  · exact C9_sum_algebra.1 ⟨"EUR", 2, 500000000⟩ ⟨"EUR", 3, 700000000⟩
      (by decide) (by decide) rfl
  · exact C9_sum_algebra.2.2.2 ⟨"USD", 1, 0⟩ ⟨"EUR", 1, 0⟩ (by decide)

/-- C8: in the ComputeTotal step, when the localized shipping cost and every
order item's cost are denominated in the requested user currency, no Sum
call fails with CurrencyMismatch — the total computation succeeds, Must
takes its value branch — and consequently PlaceOrder never crashes on the
Must calls under that precondition on the preparation's outputs. -/
theorem C8_no_mismatch_in_total :
    (∀ (cur : String) (shipping : Money) (items : List OrderItem),
      shipping.currencyCode = cur → (∀ it ∈ items, it.cost.currencyCode = cur) →
      ∃ t, computeTotal cur shipping items = .ok t ∧
        money.Must (computeTotal cur shipping items) = some t) ∧
    (∀ (cs : checkoutService) (env : Env) (req : PlaceOrderRequest) (prep : orderPrep)
        (t1 : List Event),
      prepareOrderItemsAndShippingQuoteFromCart cs env req.userId req.userCurrency
        req.address = (.ok prep, t1) →
      prep.shippingCostLocalized.currencyCode = req.userCurrency →
      (∀ it ∈ prep.orderItems, it.cost.currencyCode = req.userCurrency) →
      (PlaceOrder cs env req).1 ≠ Outcome.panic) := by
  have key : ∀ (cur : String) (shipping : Money) (items : List OrderItem),
      shipping.currencyCode = cur → (∀ it ∈ items, it.cost.currencyCode = cur) →
      ∃ t, computeTotal cur shipping items = .ok t ∧
        money.Must (computeTotal cur shipping items) = some t := by
    intro cur shipping items hs hi
    obtain ⟨t, ht, _⟩ := computeTotal_ok cur shipping items hs hi
    exact ⟨t, ht, by rw [ht]; rfl⟩
  refine ⟨key, ?_⟩
  intro cs env req prep t1 hprep hs hi
  obtain ⟨t, _, hmust⟩ := key req.userCurrency prep.shippingCostLocalized prep.orderItems hs hi
  cases hu : env.newUUID with
  | error e =>
    unfold PlaceOrder
    rw [hu]
    simp
  | ok u =>
    cases hch : chargeCard cs env t req.creditCard with
    | mk r2 t2 =>
      cases r2 with
      | error e =>
        rw [PlaceOrder_chargeFail cs env req u prep t1 t e t2 hu hprep hmust hch]
        simp
      | ok tx =>
        cases hsh : shipOrder cs env req.address prep.cartItems with
        | mk r3 t3 =>
          cases r3 with
          | error e =>
            rw [PlaceOrder_shipFail cs env req u prep t1 t tx t2 e t3 hu hprep hmust hch hsh]
            simp
          | ok track =>
            rw [PlaceOrder_success cs env req u prep t1 t tx t2 track t3 hu hprep hmust
              hch hsh]
            simp

/-- C8 witness: the ComputeTotal step of the all-successful concrete run. -/
theorem C8_no_mismatch_in_total_witness :
    ∃ t, computeTotal "EUR" ⟨"EUR", 5, 0⟩ [⟨itemW1, ⟨"EUR", 10, 0⟩⟩] = .ok t ∧
      money.Must (computeTotal "EUR" ⟨"EUR", 5, 0⟩ [⟨itemW1, ⟨"EUR", 10, 0⟩⟩]) = some t :=
  C8_no_mismatch_in_total.1 "EUR" ⟨"EUR", 5, 0⟩ [⟨itemW1, ⟨"EUR", 10, 0⟩⟩] rfl
    (by intro it hit; simp at hit; rw [hit])

/-- C4: a successful preparation returns exactly as many order items as the
fetched cart has items, in the same order, each pairing the original cart
item with its localized cost; and, under the currency collaborator's
contract (Convert returns Money denominated in the requested target
currency), every order item's cost is denominated in the requested user
currency. -/
theorem C4_prep_items (cs : checkoutService) (env : Env) (uid cur : String)
    (address : Address) (prep : orderPrep) (t : List Event)
    (hprep : prepareOrderItemsAndShippingQuoteFromCart cs env uid cur address
      = (.ok prep, t))
    (hconv : ∀ (m : Money) (c : String) (r : Money),
      env.convertResp m c = .ok r → r.currencyCode = c) :
    prep.orderItems.length = prep.cartItems.length ∧
    env.getCartResp uid = .ok prep.cartItems ∧
    List.Forall₂ (fun oi ci => oi.item = ci ∧ oi.cost.currencyCode = cur)
      prep.orderItems prep.cartItems := by
  obtain ⟨t1, t2, q, t3, t4, hg, hp, _, _⟩ := prepare_ok_inv cs env uid cur address prep t hprep
  obtain ⟨t0, hl⟩ := prepOrderItems_ok_inv cs env prep.cartItems cur prep.orderItems t2 hp
  have hf := prepOrderItemsLoop_ok cs env cur prep.cartItems prep.orderItems t0 hl
  have hweak : List.Forall₂ (fun oi ci => oi.item = ci ∧ oi.cost.currencyCode = cur)
      prep.orderItems prep.cartItems := by
    refine List.Forall₂.imp ?_ hf
    rintro oi ci ⟨hitem, p, _, hcv⟩
    exact ⟨hitem, hconv p.priceUsd cur oi.cost (convertCurrency_ok_inv cs env p.priceUsd
      cur oi.cost hcv)⟩
  exact ⟨hweak.length_eq, getUserCart_ok_inv cs env uid prep.cartItems t1 hg, hweak⟩

/-- C4 witness: the concrete all-successful preparation. -/
theorem C4_prep_items_witness :
    prepW.orderItems.length = prepW.cartItems.length ∧
    envOK.getCartResp "u1" = .ok prepW.cartItems ∧
    List.Forall₂ (fun oi ci => oi.item = ci ∧ oi.cost.currencyCode = "EUR")
      prepW.orderItems prepW.cartItems :=
  C4_prep_items csW envOK "u1" "EUR" addrW prepW
    (prepareOrderItemsAndShippingQuoteFromCart csW envOK "u1" "EUR" addrW).2
    (by rfl)
    (fun m c r h => by
      simp only [envOK, Except.ok.injEq] at h
      rw [← h])

/-- C5: if the catalog lookup or currency conversion of any single cart item
fails, the whole preparation fails with an error; and whenever preparation
succeeds, it carries an order item for every cart item — never a partial
list. -/
theorem C5_no_partial_prep :
    (∀ (cs : checkoutService) (env : Env) (uid cur : String) (address : Address)
        (items : List CartItem),
      env.getCartResp uid = .ok items →
      (∃ it ∈ items, itemPrepFails cs env cur it) →
      ∃ e t, prepareOrderItemsAndShippingQuoteFromCart cs env uid cur address
        = (.error e, t)) ∧
    (∀ (cs : checkoutService) (env : Env) (uid cur : String) (address : Address)
        (prep : orderPrep) (t : List Event),
      prepareOrderItemsAndShippingQuoteFromCart cs env uid cur address = (.ok prep, t) →
      prep.orderItems.length = prep.cartItems.length) := by
  constructor
  · intro cs env uid cur address items hcart hf
    unfold prepareOrderItemsAndShippingQuoteFromCart
    cases hg : getUserCart cs env uid with
    | mk r1 t1 =>
      cases r1 with
      | error e => exact ⟨_, _, rfl⟩
      | ok cartItems =>
        have : cartItems = items := by
          have h2 := getUserCart_ok_inv cs env uid cartItems t1 hg
          rw [hcart] at h2
          simpa using h2.symm
        subst this
        dsimp only
        obtain ⟨e, he⟩ := prepOrderItems_fails cs env cartItems cur hf
        cases hp : prepOrderItems cs env cartItems cur with
        | mk r2 t2 =>
          rw [hp] at he
          replace he : r2 = .error e := he
          rw [he]
          exact ⟨_, _, rfl⟩
  · intro cs env uid cur address prep t hprep
    obtain ⟨t1, t2, q, t3, t4, _, hp, _, _⟩ :=
      prepare_ok_inv cs env uid cur address prep t hprep
    obtain ⟨t0, hl⟩ := prepOrderItems_ok_inv cs env prep.cartItems cur prep.orderItems t2 hp
    exact (prepOrderItemsLoop_ok cs env cur prep.cartItems prep.orderItems t0 hl).length_eq

/-- C5 witness: one failing item (unknown product) aborts the concrete
preparation, and the concrete successful preparation is full-length. -/
theorem C5_no_partial_prep_witness :
    (∃ e t, prepareOrderItemsAndShippingQuoteFromCart csW
      { envOK with getProductResp := fun _ => .error "no such product" }
      "u1" "EUR" addrW = (.error e, t)) ∧
    prepW.orderItems.length = prepW.cartItems.length := by
  constructor
  · exact C5_no_partial_prep.1 csW
      { envOK with getProductResp := fun _ => .error "no such product" }
      "u1" "EUR" addrW [itemW1] rfl
      ⟨itemW1, by simp, .inl ⟨"no such product", rfl⟩⟩
  · exact C5_no_partial_prep.2 csW envOK "u1" "EUR" addrW prepW
      (prepareOrderItemsAndShippingQuoteFromCart csW envOK "u1" "EUR" addrW).2 (by rfl)

/-- C1: in every successful PlaceOrder run, the amount passed to
Payment.Charge — the unique payment RPC of the run — equals the total
reconstructed independently per the spec: zero Money in the user currency,
Sum the localized shipping cost, then Sum every order item's localized cost
in cart order. -/
theorem C1_total_charged (cs : checkoutService) (env : Env) (req : PlaceOrderRequest)
    (resp : PlaceOrderResponse) (t : List Event)
    (h : PlaceOrder cs env req = (.ok resp, t)) :
    ∃ prep t1 total,
      prepareOrderItemsAndShippingQuoteFromCart cs env req.userId req.userCurrency
        req.address = (.ok prep, t1) ∧
      specTotal req.userCurrency prep.shippingCostLocalized
        (prep.orderItems.map OrderItem.cost) = .ok total ∧
      chargeAmounts t = [total] := by
  obtain ⟨u, prep, t1, total, tx, t2, track, t3, hu, hprep, hm, hch, hsh, hresp, ht⟩ :=
    PlaceOrder_ok_inv cs env req resp t h
  refine ⟨prep, t1, total, hprep, ?_, ?_⟩
  · rw [specTotal_eq_computeTotal]
    cases hct : computeTotal req.userCurrency prep.shippingCostLocalized prep.orderItems with
    | error e => rw [hct] at hm; simp [money.Must] at hm
    | ok t0 =>
      rw [hct] at hm
      simp only [money.Must, Option.some.injEq] at hm
      rw [hm]
  · have h1 := chargeAmounts_prepare cs env req.userId req.userCurrency req.address
    rw [hprep] at h1
    replace h1 : chargeAmounts t1 = [] := h1
    have h2 := chargeAmounts_chargeCard_ok cs env total req.creditCard tx t2 hch
    have h3 := chargeAmounts_shipOrder cs env req.address prep.cartItems
    rw [hsh] at h3
    replace h3 : chargeAmounts t3 = [] := h3
    have h4 := chargeAmounts_emptyUserCart cs env req.userId
    have h5 := chargeAmounts_sendOrderConfirmation cs env req.email resp.order
    rw [ht, chargeAmounts_append, chargeAmounts_append, chargeAmounts_append,
      chargeAmounts_append, h1, h2, h3, h4, h5]
    rfl

/-- C1 witness: the concrete all-successful run charges exactly 15.00 EUR,
the spec-reconstructed total. -/
theorem C1_total_charged_witness :
    ∃ prep t1 total,
      prepareOrderItemsAndShippingQuoteFromCart csW envOK "u1" "EUR" addrW
        = (.ok prep, t1) ∧
      specTotal "EUR" prep.shippingCostLocalized (prep.orderItems.map OrderItem.cost)
        = .ok total ∧
      chargeAmounts (PlaceOrder csW envOK reqW).2 = [total] :=
  C1_total_charged csW envOK reqW
    ⟨⟨"order-1", "TRACK-1", ⟨"EUR", 5, 0⟩, addrW, [⟨itemW1, ⟨"EUR", 10, 0⟩⟩]⟩⟩
    (PlaceOrder csW envOK reqW).2 (by rfl)

/-- C2: when Payment.Charge succeeds but Shipping.ShipOrder fails,
PlaceOrder returns an Unavailable status and issues no compensating call:
the single original charge is the only payment RPC in the whole run (the
RPC type enumerates every call the code issues — there is no refund or
reversal). -/
theorem C2_ship_fail_no_refund (cs : checkoutService) (env : Env) (req : PlaceOrderRequest)
    (u : String) (prep : orderPrep) (t1 : List Event) (total : Money) (tx : String)
    (t2 : List Event) (e : String) (t3 : List Event)
    (hu : env.newUUID = .ok u)
    (hprep : prepareOrderItemsAndShippingQuoteFromCart cs env req.userId req.userCurrency
      req.address = (.ok prep, t1))
    (hm : money.Must (computeTotal req.userCurrency prep.shippingCostLocalized
      prep.orderItems) = some total)
    (hch : chargeCard cs env total req.creditCard = (.ok tx, t2))
    (hsh : shipOrder cs env req.address prep.cartItems = (.error e, t3)) :
    PlaceOrder cs env req = (.fail .unavailable ("shipping error: " ++ e), t1 ++ t2 ++ t3) ∧
    chargeAmounts (PlaceOrder cs env req).2 = [total] := by
  have hp := PlaceOrder_shipFail cs env req u prep t1 total tx t2 e t3 hu hprep hm hch hsh
  refine ⟨hp, ?_⟩
  rw [hp]
  have h1 := chargeAmounts_prepare cs env req.userId req.userCurrency req.address
  rw [hprep] at h1
  replace h1 : chargeAmounts t1 = [] := h1
  have h2 := chargeAmounts_chargeCard_ok cs env total req.creditCard tx t2 hch
  have h3 := chargeAmounts_shipOrder cs env req.address prep.cartItems
  rw [hsh] at h3
  replace h3 : chargeAmounts t3 = [] := h3
  show chargeAmounts (t1 ++ t2 ++ t3) = [total]
  rw [chargeAmounts_append, chargeAmounts_append, h1, h2, h3]
  rfl

/-- C2 witness: the concrete run whose carrier rejects the shipment is
charged 15.00 EUR, exactly once, and ends Unavailable. -/
theorem C2_ship_fail_no_refund_witness :
    PlaceOrder csW envShipFail reqW =
      (.fail .unavailable ("shipping error: " ++ "shipment failed: carrier unreachable"),
        (prepareOrderItemsAndShippingQuoteFromCart csW envShipFail "u1" "EUR" addrW).2 ++
          (chargeCard csW envShipFail ⟨"EUR", 15, 0⟩ cardW).2 ++
          (shipOrder csW envShipFail addrW [itemW1]).2) ∧
    chargeAmounts (PlaceOrder csW envShipFail reqW).2 = [⟨"EUR", 15, 0⟩] :=
  C2_ship_fail_no_refund csW envShipFail reqW "order-1" prepW
    (prepareOrderItemsAndShippingQuoteFromCart csW envShipFail "u1" "EUR" addrW).2
    ⟨"EUR", 15, 0⟩ "TX-1"
    (chargeCard csW envShipFail ⟨"EUR", 15, 0⟩ cardW).2
    "shipment failed: carrier unreachable"
    (shipOrder csW envShipFail addrW [itemW1]).2
    (by rfl) (by rfl) (by rfl) (by rfl) (by rfl)

/-- C3: if the preparation phase (cart fetch, per-item pricing, currency
conversion, or shipping quote) fails, PlaceOrder returns an internal-error
status and no Payment.Charge RPC is ever issued; and when Payment.Charge
itself fails, PlaceOrder also returns an internal-error status. -/
theorem C3_internal_errors :
    (∀ (cs : checkoutService) (env : Env) (req : PlaceOrderRequest) (u e : String)
        (t1 : List Event),
      env.newUUID = .ok u →
      prepareOrderItemsAndShippingQuoteFromCart cs env req.userId req.userCurrency
        req.address = (.error e, t1) →
      PlaceOrder cs env req = (.fail .internal e, t1) ∧
        chargeAmounts (PlaceOrder cs env req).2 = []) ∧
    (∀ (cs : checkoutService) (env : Env) (req : PlaceOrderRequest) (u : String)
        (prep : orderPrep) (t1 : List Event) (total : Money) (e : String) (t2 : List Event),
      env.newUUID = .ok u →
      prepareOrderItemsAndShippingQuoteFromCart cs env req.userId req.userCurrency
        req.address = (.ok prep, t1) →
      money.Must (computeTotal req.userCurrency prep.shippingCostLocalized
        prep.orderItems) = some total →
      chargeCard cs env total req.creditCard = (.error e, t2) →
      PlaceOrder cs env req =
        (.fail .internal ("failed to charge card: " ++ e), t1 ++ t2)) := by
  constructor
  · intro cs env req u e t1 hu hprep
    have hp := PlaceOrder_prepFail cs env req u e t1 hu hprep
    refine ⟨hp, ?_⟩
    rw [hp]
    have h1 := chargeAmounts_prepare cs env req.userId req.userCurrency req.address
    rw [hprep] at h1
    exact h1
  · intro cs env req u prep t1 total e t2 hu hprep hm hch
    exact PlaceOrder_chargeFail cs env req u prep t1 total e t2 hu hprep hm hch

/-- C3 witness: a failing cart fetch yields an internal error with no charge
RPC, and a declined card yields an internal error. -/
theorem C3_internal_errors_witness :
    (PlaceOrder csW envCartFail reqW =
      (.fail .internal "cart failure: failed to get user cart during checkout: redis timeout",
        (prepareOrderItemsAndShippingQuoteFromCart csW envCartFail "u1" "EUR" addrW).2) ∧
      chargeAmounts (PlaceOrder csW envCartFail reqW).2 = []) ∧
    PlaceOrder csW envChargeFail reqW =
      (.fail .internal ("failed to charge card: " ++ "could not charge the card: card declined"),
        (prepareOrderItemsAndShippingQuoteFromCart csW envChargeFail "u1" "EUR" addrW).2 ++
          (chargeCard csW envChargeFail ⟨"EUR", 15, 0⟩ cardW).2) := by
  constructor
  · exact C3_internal_errors.1 csW envCartFail reqW "order-1"
      "cart failure: failed to get user cart during checkout: redis timeout"
      (prepareOrderItemsAndShippingQuoteFromCart csW envCartFail "u1" "EUR" addrW).2
      (by rfl) (by rfl)
  · exact C3_internal_errors.2 csW envChargeFail reqW "order-1" prepW
      (prepareOrderItemsAndShippingQuoteFromCart csW envChargeFail "u1" "EUR" addrW).2
      ⟨"EUR", 15, 0⟩ "could not charge the card: card declined"
      (chargeCard csW envChargeFail ⟨"EUR", 15, 0⟩ cardW).2
      (by rfl) (by rfl) (by rfl) (by rfl)

/-- C6: whenever the pipeline reaches the cart-emptying step (preparation,
total, charge and shipment all succeeded), PlaceOrder returns the successful
OrderResult assembled from the order id, tracking id, localized shipping
cost, address and order items — stated with NO hypothesis on the outcomes
of Cart.EmptyCart or Email.SendOrderConfirmation, so failures of either
best-effort step cannot change the outcome. -/
theorem C6_best_effort_immaterial (cs : checkoutService) (env : Env)
    (req : PlaceOrderRequest) (u : String) (prep : orderPrep) (t1 : List Event)
    (total : Money) (tx : String) (t2 : List Event) (track : String) (t3 : List Event)
    (hu : env.newUUID = .ok u)
    (hprep : prepareOrderItemsAndShippingQuoteFromCart cs env req.userId req.userCurrency
      req.address = (.ok prep, t1))
    (hm : money.Must (computeTotal req.userCurrency prep.shippingCostLocalized
      prep.orderItems) = some total)
    (hch : chargeCard cs env total req.creditCard = (.ok tx, t2))
    (hsh : shipOrder cs env req.address prep.cartItems = (.ok track, t3)) :
    (PlaceOrder cs env req).1 =
      .ok ⟨⟨u, track, prep.shippingCostLocalized, req.address, prep.orderItems⟩⟩ := by
  rw [PlaceOrder_success cs env req u prep t1 total tx t2 track t3 hu hprep hm hch hsh]

/-- C6 witness: with both best-effort steps failing, the concrete run still
returns the same successful OrderResult as the all-successful run. -/
theorem C6_best_effort_immaterial_witness :
    (PlaceOrder csW envBestEffortFail reqW).1 =
      .ok ⟨⟨"order-1", "TRACK-1", prepW.shippingCostLocalized, addrW, prepW.orderItems⟩⟩ :=
  C6_best_effort_immaterial csW envBestEffortFail reqW "order-1" prepW
    (prepareOrderItemsAndShippingQuoteFromCart csW envBestEffortFail "u1" "EUR" addrW).2
    ⟨"EUR", 15, 0⟩ "TX-1"
    (chargeCard csW envBestEffortFail ⟨"EUR", 15, 0⟩ cardW).2
    "TRACK-1"
    (shipOrder csW envBestEffortFail addrW [itemW1]).2
    (by rfl) (by rfl) (by rfl) (by rfl) (by rfl)

/-- C10: for a user whose cart is empty, PlaceOrder does not fail at
preparation: when every must-succeed collaborator responds (and the currency
collaborator returns a valid Money in the requested currency), it proceeds
through the full pipeline, calls Payment.Charge with exactly the localized
shipping cost, and returns a successful OrderResult whose item list is
empty. -/
theorem C10_empty_cart (cs : checkoutService) (env : Env) (req : PlaceOrderRequest)
    (u : String) (q s : Money) (tx track : String)
    (hu : env.newUUID = .ok u)
    (hdCart : env.dial cs.cartSvcAddr = .ok ())
    (hcart : env.getCartResp req.userId = .ok [])
    (hdCat : env.dial cs.productCatalogSvcAddr = .ok ())
    (hdShip : env.dial cs.shippingSvcAddr = .ok ())
    (hq : env.getQuoteResp req.address [] = .ok q)
    (hdCur : env.dial cs.currencySvcAddr = .ok ())
    (hconv : env.convertResp q req.userCurrency = .ok s)
    (hscur : s.currencyCode = req.userCurrency)
    (hsval : IsValid s)
    (hdPay : env.dial cs.paymentSvcAddr = .ok ())
    (hcharge : env.chargeResp s req.creditCard = .ok tx)
    (hship : env.shipOrderResp req.address [] = .ok track) :
    (PlaceOrder cs env req).1 = .ok ⟨⟨u, track, s, req.address, []⟩⟩ ∧
    chargeAmounts (PlaceOrder cs env req).2 = [s] := by
  have hgc : getUserCart cs env req.userId =
      (.ok [], [.dial cs.cartSvcAddr, .rpc cs.cartSvcAddr (.getCart req.userId),
        .close cs.cartSvcAddr]) := by
    unfold getUserCart
    rw [hdCart]
    dsimp only
    rw [hcart]
  have hpo : prepOrderItems cs env [] req.userCurrency =
      (.ok [], [.dial cs.productCatalogSvcAddr, .close cs.productCatalogSvcAddr]) := by
    unfold prepOrderItems
    rw [hdCat]
    dsimp only
    rfl
  have hqs : quoteShipping cs env req.address [] =
      (.ok q, [.dial cs.shippingSvcAddr, .rpc cs.shippingSvcAddr (.getQuote req.address []),
        .close cs.shippingSvcAddr]) := by
    unfold quoteShipping
    rw [hdShip]
    dsimp only
    rw [hq]
  have hcv : convertCurrency cs env q req.userCurrency =
      (.ok s, [.dial cs.currencySvcAddr,
        .rpc cs.currencySvcAddr (.convert q req.userCurrency), .close cs.currencySvcAddr]) := by
    unfold convertCurrency
    rw [hdCur]
    dsimp only
    rw [hconv]
  obtain ⟨t1, hprep⟩ : ∃ t1, prepareOrderItemsAndShippingQuoteFromCart cs env req.userId
      req.userCurrency req.address = (.ok ⟨[], [], s⟩, t1) := by
    unfold prepareOrderItemsAndShippingQuoteFromCart
    rw [hgc]
    dsimp only
    rw [hpo]
    dsimp only
    rw [hqs]
    dsimp only
    rw [hcv]
    exact ⟨_, rfl⟩
  have hm : money.Must (computeTotal req.userCurrency s ([] : List OrderItem)) = some s := by
    rw [computeTotal_nil req.userCurrency s hsval hscur]
    rfl
  obtain ⟨t2, hch⟩ : ∃ t2, chargeCard cs env s req.creditCard = (.ok tx, t2) := by
    unfold chargeCard
    rw [hdPay]
    dsimp only
    rw [hcharge]
    exact ⟨_, rfl⟩
  obtain ⟨t3, hsh⟩ : ∃ t3, shipOrder cs env req.address [] = (.ok track, t3) := by
    unfold shipOrder
    rw [hdShip]
    dsimp only
    rw [hship]
    exact ⟨_, rfl⟩
  have hp := PlaceOrder_success cs env req u ⟨[], [], s⟩ t1 s tx t2 track t3 hu hprep hm
    hch hsh
  constructor
  · rw [hp]
  · rw [hp]
    have h1 := chargeAmounts_prepare cs env req.userId req.userCurrency req.address
    rw [hprep] at h1
    replace h1 : chargeAmounts t1 = [] := h1
    have h2 := chargeAmounts_chargeCard_ok cs env s req.creditCard tx t2 hch
    have h3 := chargeAmounts_shipOrder cs env req.address ([] : List CartItem)
    rw [hsh] at h3
    replace h3 : chargeAmounts t3 = [] := h3
    have h4 := chargeAmounts_emptyUserCart cs env req.userId
    have h5 := chargeAmounts_sendOrderConfirmation cs env req.email
      ⟨u, track, s, req.address, []⟩
    show chargeAmounts (t1 ++ t2 ++ t3 ++ (emptyUserCart cs env req.userId).2 ++
      (sendOrderConfirmation cs env req.email ⟨u, track, s, req.address, []⟩).2) = [s]
    rw [chargeAmounts_append, chargeAmounts_append, chargeAmounts_append,
      chargeAmounts_append, h1, h2, h3, h4, h5]
    rfl

/-- C10 witness: the concrete empty-cart run charges exactly the localized
5.00 EUR shipping cost and returns an empty item list. -/
theorem C10_empty_cart_witness :
    (PlaceOrder csW envEmptyCart reqW).1 =
      .ok ⟨⟨"order-1", "TRACK-1", ⟨"EUR", 5, 0⟩, addrW, []⟩⟩ ∧
    chargeAmounts (PlaceOrder csW envEmptyCart reqW).2 = [⟨"EUR", 5, 0⟩] :=
  C10_empty_cart csW envEmptyCart reqW "order-1" ⟨"USD", 5, 0⟩ ⟨"EUR", 5, 0⟩ "TX-1" "TRACK-1"
    (by rfl) (by rfl) (by rfl) (by rfl) (by rfl) (by rfl) (by rfl) (by rfl) (by rfl)
    (by decide) (by rfl) (by rfl) (by rfl)

/-- C7 counterexample: the claim fails on the code.  For a two-item cart,
`prepOrderItems` issues TWO GetProduct RPCs over its single product-catalog
connection — not exactly one RPC; `shipOrder` wraps its connection error
with the EMAIL service's name, not its own collaborator's; and
`sendOrderConfirmation` surfaces its RPC error completely unwrapped. -/
theorem C7_counterexample :
    ((prepOrderItems csW envOK [itemW1, itemW2] "EUR").2.filter isGetProductEvent).length
      = 2 ∧
    (shipOrder csW envShipDialFail addrW []).1 =
      .error "failed to connect email service: boom" ∧
    (sendOrderConfirmation csW envBestEffortFail "someone@example.com"
      ⟨"o", "t", ⟨"EUR", 1, 0⟩, addrW, []⟩).1 = .error "smtp down" := by
  refine ⟨?_, ?_, ?_⟩ <;> rfl

/-- C7 amended: every adapter call opens a fresh connection to its own
collaborator's address and, once dialed, releases exactly that connection
unconditionally — success path included — as its final action; the seven
single-shot adapters issue exactly one RPC over it, while `prepOrderItems`
issues one GetProduct RPC per cart item over its single catalog connection
(plus one currency-adapter call per item); every surfaced error carries the
fixed stage-identifying wrap shown, EXCEPT that `shipOrder`'s
connect-failure message names the email service and
`sendOrderConfirmation` returns its RPC error unwrapped. -/
theorem C7_amended (cs : checkoutService) (env : Env) :
    (∀ uid, adapterCallShape cs.cartSvcAddr (env.dial cs.cartSvcAddr) isGetCartEvent 1
        (getUserCart cs env uid).2 ∧
      (∀ m, (getUserCart cs env uid).1 = .error m →
        (∃ e, m = "could not connect cart service: " ++ e) ∨
        (∃ e, m = "failed to get user cart during checkout: " ++ e))) ∧
    (∀ uid, adapterCallShape cs.cartSvcAddr (env.dial cs.cartSvcAddr) isEmptyCartEvent 1
        (emptyUserCart cs env uid).2 ∧
      (∀ m, (emptyUserCart cs env uid).1 = .error m →
        (∃ e, m = "could not connect cart service: " ++ e) ∨
        (∃ e, m = "failed to empty user cart during checkout: " ++ e))) ∧
    (∀ (m0 : Money) (c : String),
      adapterCallShape cs.currencySvcAddr (env.dial cs.currencySvcAddr) isConvertEvent 1
        (convertCurrency cs env m0 c).2 ∧
      (∀ m, (convertCurrency cs env m0 c).1 = .error m →
        (∃ e, m = "could not connect currency service: " ++ e) ∨
        (∃ e, m = "failed to convert currency: " ++ e))) ∧
    (∀ (a : Address) (items : List CartItem),
      adapterCallShape cs.shippingSvcAddr (env.dial cs.shippingSvcAddr) isGetQuoteEvent 1
        (quoteShipping cs env a items).2 ∧
      (∀ m, (quoteShipping cs env a items).1 = .error m →
        (∃ e, m = "could not connect shipping service: " ++ e) ∨
        (∃ e, m = "failed to get shipping quote: " ++ e))) ∧
    (∀ (a : Address) (items : List CartItem),
      adapterCallShape cs.shippingSvcAddr (env.dial cs.shippingSvcAddr) isShipOrderEvent 1
        (shipOrder cs env a items).2 ∧
      (∀ m, (shipOrder cs env a items).1 = .error m →
        (∃ e, m = "failed to connect email service: " ++ e) ∨
        (∃ e, m = "shipment failed: " ++ e))) ∧
    (∀ (amount : Money) (card : CreditCardInfo),
      adapterCallShape cs.paymentSvcAddr (env.dial cs.paymentSvcAddr) isChargeEvent 1
        (chargeCard cs env amount card).2 ∧
      (∀ m, (chargeCard cs env amount card).1 = .error m →
        (∃ e, m = "failed to connect payment service: " ++ e) ∨
        (∃ e, m = "could not charge the card: " ++ e))) ∧
    (∀ (em : String) (o : OrderResult),
      adapterCallShape cs.emailSvcAddr (env.dial cs.emailSvcAddr) isSendConfirmEvent 1
        (sendOrderConfirmation cs env em o).2 ∧
      (∀ m, (sendOrderConfirmation cs env em o).1 = .error m →
        (∃ e, m = "failed to connect email service: " ++ e) ∨
        env.sendConfirmResp em o = .error m)) ∧
    (∀ (items : List CartItem) (cur : String),
      cs.currencySvcAddr ≠ cs.productCatalogSvcAddr →
      (∀ e, env.dial cs.productCatalogSvcAddr = .error e →
        prepOrderItems cs env items cur =
          (.error ("could not connect product catalog service: " ++ e),
            [.dial cs.productCatalogSvcAddr])) ∧
      (env.dial cs.productCatalogSvcAddr = .ok () →
        startsWithDial cs.productCatalogSvcAddr (prepOrderItems cs env items cur).2 ∧
        endsWithClose cs.productCatalogSvcAddr (prepOrderItems cs env items cur).2 ∧
        closeCountAt cs.productCatalogSvcAddr (prepOrderItems cs env items cur).2 = 1 ∧
        (∀ out, (prepOrderItems cs env items cur).1 = .ok out →
          ((prepOrderItems cs env items cur).2.filter isGetProductEvent).length
            = items.length)) ∧
      (∀ m, (prepOrderItems cs env items cur).1 = .error m →
        (∃ e, m = "could not connect product catalog service: " ++ e) ∨
        (∃ pid, m = "failed to get product #" ++ quoteStr pid ∨
          m = "failed to convert price of " ++ quoteStr pid ++ " to " ++ cur))) :=
  ⟨fun uid => getUserCart_shape cs env uid,
   fun uid => emptyUserCart_shape cs env uid,
   fun m0 c => convertCurrency_shape cs env m0 c,
   fun a items => quoteShipping_shape cs env a items,
   fun a items => shipOrder_shape cs env a items,
   fun amount card => chargeCard_shape cs env amount card,
   fun em o => sendOrderConfirmation_shape cs env em o,
   fun items cur hne => prepOrderItems_shape cs env items cur hne⟩

/-- C7 amended witness: the discipline applied to the concrete two-item
preparation and the concrete cart fetch. -/
theorem C7_amended_witness :
    (startsWithDial csW.productCatalogSvcAddr
        (prepOrderItems csW envOK [itemW1, itemW2] "EUR").2 ∧
      endsWithClose csW.productCatalogSvcAddr
        (prepOrderItems csW envOK [itemW1, itemW2] "EUR").2 ∧
      ((prepOrderItems csW envOK [itemW1, itemW2] "EUR").2.filter isGetProductEvent).length
        = 2) ∧
    adapterCallShape csW.cartSvcAddr (envOK.dial csW.cartSvcAddr) isGetCartEvent 1
      (getUserCart csW envOK "u1").2 := by
  have h := C7_amended csW envOK
  obtain ⟨hcart, -, -, -, -, -, -, hprep⟩ := h
  obtain ⟨-, hok, -⟩ := hprep [itemW1, itemW2] "EUR" (by decide)
  obtain ⟨h1, h2, -, h4⟩ := hok rfl
  exact ⟨⟨h1, h2, h4 [⟨itemW1, ⟨"EUR", 10, 0⟩⟩, ⟨itemW2, ⟨"EUR", 10, 0⟩⟩] (by rfl)⟩,
    (hcart "u1").1⟩
